import Mathlib

/-!
Verification development for the nutrition-autopilot repository.

This file shallowly embeds the pure computational core of
`scripts/agent_nutrient_enrichment.py` (nutrient value resolution engine)
and `scripts/agent_refresh_served_labels.py` (label computation, evidence
aggregation and the lineage snapshot builder), and proves properties of
those definitions.

Modelling conventions:
- Python floats are modelled by `PyFloat` (a rational plus NaN and the two
  infinities) where NaN/infinity propagation matters, and by plain `ℚ`
  where the code only performs exact-decimal arithmetic on ordinary values.
- Python dicts keyed by nutrient key are modelled as association lists
  (`List (String × _)`), preserving insertion order as dicts do.
- Database/network effects are modelled by passing the fetched rows as
  explicit arguments (the provider outputs become inputs of the resolver).
-/

namespace NutritionAutopilot

/-- A Python float: NaN, +inf, -inf, or a finite value (exact arithmetic). -/
inductive PyFloat where
  | nan : PyFloat
  | inf : PyFloat
  | ninf : PyFloat
  | fin : ℚ → PyFloat
deriving DecidableEq, Repr

/-- The Python test `v != v` is true exactly for NaN. -/
def PyFloat.isNaN : PyFloat → Bool
  | .nan => true
  | _ => false

/-- The Python comparison `v < 0`: false for NaN, false for +inf,
true for -inf, and the rational comparison for finite values. -/
def PyFloat.ltZero : PyFloat → Bool
  | .nan => false
  | .inf => false
  | .ninf => true
  | .fin q => decide (q < 0)

/-- A float is finite when it is neither NaN nor an infinity. -/
def PyFloat.isFinite : PyFloat → Bool
  | .fin _ => true
  | _ => false

/-- Source `TARGET_KEYS` from agent_nutrient_enrichment.py: the 40 canonical
nutrient keys the resolver fills. -/
def TARGET_KEYS : List String :=
  ["kcal", "protein_g", "carb_g", "fat_g", "fiber_g", "sugars_g",
   "added_sugars_g", "sat_fat_g", "trans_fat_g", "cholesterol_mg",
   "sodium_mg", "vitamin_d_mcg", "calcium_mg", "iron_mg", "potassium_mg",
   "vitamin_a_mcg", "vitamin_c_mg", "vitamin_e_mg", "vitamin_k_mcg",
   "thiamin_mg", "riboflavin_mg", "niacin_mg", "vitamin_b6_mg",
   "folate_mcg", "vitamin_b12_mcg", "biotin_mcg", "pantothenic_acid_mg",
   "phosphorus_mg", "iodine_mcg", "magnesium_mg", "zinc_mg",
   "selenium_mcg", "copper_mg", "manganese_mg", "chromium_mcg",
   "molybdenum_mcg", "chloride_mg", "choline_mg", "omega3_g", "omega6_g"]

/-- Source `TARGET_UNIT_BY_KEY` from agent_nutrient_enrichment.py. -/
def TARGET_UNIT_BY_KEY : List (String × String) :=
  [("kcal", "kcal"), ("protein_g", "g"), ("carb_g", "g"), ("fat_g", "g"),
   ("fiber_g", "g"), ("sugars_g", "g"), ("added_sugars_g", "g"),
   ("sat_fat_g", "g"), ("trans_fat_g", "g"), ("cholesterol_mg", "mg"),
   ("sodium_mg", "mg"), ("vitamin_d_mcg", "mcg"), ("calcium_mg", "mg"),
   ("iron_mg", "mg"), ("potassium_mg", "mg"), ("vitamin_a_mcg", "mcg"),
   ("vitamin_c_mg", "mg"), ("vitamin_e_mg", "mg"), ("vitamin_k_mcg", "mcg"),
   ("thiamin_mg", "mg"), ("riboflavin_mg", "mg"), ("niacin_mg", "mg"),
   ("vitamin_b6_mg", "mg"), ("folate_mcg", "mcg"), ("vitamin_b12_mcg", "mcg"),
   ("biotin_mcg", "mcg"), ("pantothenic_acid_mg", "mg"),
   ("phosphorus_mg", "mg"), ("iodine_mcg", "mcg"), ("magnesium_mg", "mg"),
   ("zinc_mg", "mg"), ("selenium_mcg", "mcg"), ("copper_mg", "mg"),
   ("manganese_mg", "mg"), ("chromium_mcg", "mcg"), ("molybdenum_mcg", "mcg"),
   ("chloride_mg", "mg"), ("choline_mg", "mg"), ("omega3_g", "g"),
   ("omega6_g", "g")]

/-- Source `DEFAULT_SIMILAR_FALLBACKS` from agent_nutrient_enrichment.py: the
static per-key default constants used by the global fallback. -/
def DEFAULT_SIMILAR_FALLBACKS : List (String × ℚ) :=
  [("kcal", 120), ("protein_g", 5), ("carb_g", 15), ("fat_g", 4),
   ("fiber_g", 2), ("sugars_g", 3), ("added_sugars_g", 1), ("sat_fat_g", 1),
   ("trans_fat_g", 0.01), ("cholesterol_mg", 5), ("sodium_mg", 80),
   ("vitamin_d_mcg", 0.2), ("calcium_mg", 40), ("iron_mg", 1),
   ("potassium_mg", 180), ("vitamin_a_mcg", 30), ("vitamin_c_mg", 4),
   ("vitamin_e_mg", 0.8), ("vitamin_k_mcg", 8), ("thiamin_mg", 0.08),
   ("riboflavin_mg", 0.07), ("niacin_mg", 0.9), ("vitamin_b6_mg", 0.1),
   ("folate_mcg", 20), ("vitamin_b12_mcg", 0.2), ("biotin_mcg", 1.5),
   ("pantothenic_acid_mg", 0.4), ("phosphorus_mg", 90), ("iodine_mcg", 8),
   ("magnesium_mg", 20), ("zinc_mg", 0.7), ("selenium_mcg", 8),
   ("copper_mg", 0.08), ("manganese_mg", 0.2), ("chromium_mcg", 2),
   ("molybdenum_mcg", 5), ("chloride_mg", 70), ("choline_mg", 18),
   ("omega3_g", 0.06), ("omega6_g", 0.3)]

/-- Source `CARB_SUGAR_KEYS` from agent_nutrient_enrichment.py. -/
def CARB_SUGAR_KEYS : List String := ["carb_g", "fiber_g", "sugars_g", "added_sugars_g"]

/-- Source `PLAIN_ANIMAL_PROTEIN_TOKENS` from agent_nutrient_enrichment.py. -/
def PLAIN_ANIMAL_PROTEIN_TOKENS : List String :=
  ["BEEF", "CHICKEN", "TURKEY", "COD", "TUNA", "FISH"]

/-- Source `PLAIN_ANIMAL_PROTEIN_EXCLUSIONS` from agent_nutrient_enrichment.py. -/
def PLAIN_ANIMAL_PROTEIN_EXCLUSIONS : List String :=
  ["BAR", "BREAD", "BAGEL", "TORTILLA", "PASTA", "RICE", "BEAN", "YOGURT",
   "CHEESE", "MILK", "WHEY", "SAUSAGE", "NUGGET", "BREADED", "SAUCE",
   "JERKY", "DRINK"]

/-- Source `ProductRow` dataclass from agent_nutrient_enrichment.py. -/
structure ProductRow where
  product_id : String
  organization_id : String
  product_name : String
  brand : String
  upc : Option String
  ingredient_id : String
  ingredient_key : String
  ingredient_name : String
deriving DecidableEq, Repr

/-- Source `SourceValue` dataclass from agent_nutrient_enrichment.py. -/
structure SourceValue where
  value : PyFloat
  source_type : String
  source_ref : String
  evidence_grade : String
  confidence : ℚ
  historical_exception : Bool
deriving DecidableEq, Repr

/-- Helper: the character list `needle` begins `hay`. -/
def charsStartWith : List Char → List Char → Bool
  | [], _ => true
  | _ :: _, [] => false
  | a :: as, b :: bs => a = b && charsStartWith as bs

/-- Python substring test `needle in hay` on character lists. -/
def charsContain (needle : List Char) : List Char → Bool
  | [] => charsStartWith needle []
  | c :: cs => charsStartWith needle (c :: cs) || charsContain needle cs

/-- Python `token in haystack` on strings. -/
def strContains (haystack token : String) : Bool :=
  charsContain token.data haystack.data

/-- Python `str.upper()` (ASCII case map), written structurally so the
kernel can evaluate it. -/
def pyUpper (s : String) : String := String.mk (s.data.map Char.toUpper)

/-- Source `is_plain_animal_protein` from agent_nutrient_enrichment.py: the
upper-cased `" ".join` of ingredient key/name, product name and brand
contains an animal-protein token and no exclusion token. -/
def is_plain_animal_protein (product : ProductRow) : Bool :=
  let haystack := pyUpper (product.ingredient_key ++ " " ++ product.ingredient_name
    ++ " " ++ product.product_name ++ " " ++ product.brand)
  if PLAIN_ANIMAL_PROTEIN_EXCLUSIONS.any (fun token => strContains haystack token) then
    false
  else
    PLAIN_ANIMAL_PROTEIN_TOKENS.any (fun token => strContains haystack token)

/-- Source `forced_zero_for_missing_key` from agent_nutrient_enrichment.py. -/
def forced_zero_for_missing_key (product : ProductRow) (nutrient_key : String)
    (historical_mode : Bool) : Option SourceValue :=
  if ¬ (nutrient_key ∈ CARB_SUGAR_KEYS) then none
  else if ¬ is_plain_animal_protein product then none
  else some
    { value := .fin 0
      source_type := "DERIVED"
      source_ref := "sanity-rule:animal-protein-zero-carb"
      evidence_grade := "INFERRED_FROM_INGREDIENT"
      confidence := mkRat 8 10
      historical_exception := historical_mode }

/-- Python dict lookup `d.get(k)` on an association list. -/
def mlookup {α : Type} (k : String) : List (String × α) → Option α
  | [] => none
  | (a, b) :: es => if k = a then some b else mlookup k es

/-- The per-product merged map `merged : Dict[str, SourceValue]`, as an
insertion-ordered association list with unique keys. -/
abbrev Merged : Type := List (String × SourceValue)

/-- Dict write `m[k] = v`: replace in place when the key exists,
append otherwise (Python dicts keep the original position on update). -/
def msetValue (m : Merged) (k : String) (v : SourceValue) : Merged :=
  if (mlookup k m).isSome then
    m.map (fun p => if p.1 = k then (k, v) else p)
  else
    m ++ [(k, v)]

/-- One iteration of the loop in `merge_values`
(agent_nutrient_enrichment.py): skip keys outside `TARGET_UNIT_BY_KEY`,
NaN values and negative values; otherwise install the candidate when the
key is unresolved or the candidate's confidence strictly exceeds the
current winner's. -/
def mergeStep (source_type source_ref evidence_grade : String) (confidence : ℚ)
    (historical_exception : Bool) (m : Merged) (kv : String × PyFloat) : Merged :=
  if (mlookup kv.1 TARGET_UNIT_BY_KEY).isNone then m
  else if kv.2.isNaN then m
  else if kv.2.ltZero then m
  else
    let candidate : SourceValue :=
      { value := kv.2
        source_type := source_type
        source_ref := source_ref
        evidence_grade := evidence_grade
        confidence := confidence
        historical_exception := historical_exception }
    match mlookup kv.1 m with
    | none => msetValue m kv.1 candidate
    | some existing =>
      if confidence > existing.confidence then msetValue m kv.1 candidate else m

/-- Source `merge_values` from agent_nutrient_enrichment.py: fold `mergeStep`
over the incoming per-key value map. -/
def merge_values (m : Merged) (incoming : List (String × PyFloat))
    (source_type source_ref evidence_grade : String) (confidence : ℚ)
    (historical_exception : Bool) : Merged :=
  incoming.foldl (mergeStep source_type source_ref evidence_grade confidence historical_exception) m

/-- Source `normalize_upc` from agent_nutrient_enrichment.py: keep digits only,
require at least 8 of them. -/
def normalize_upc (value : Option String) : Option String :=
  match value with
  | none => none
  | some s =>
    let digits := s.data.filter Char.isDigit
    if digits.length < 8 then none else some (String.mk digits)

/-- The confidence baseline applied to existing rows in step 1 of
`resolve_product_profile` (agent_nutrient_enrichment.py, lines 933-941). -/
def baselineConfidence (v : SourceValue) : ℚ :=
  if v.source_type = "MANUAL" ∨ v.source_type = "MANUFACTURER" then mkRat 95 100
  else if v.source_type = "USDA" then mkRat 82 100
  else if v.evidence_grade = "INFERRED_FROM_INGREDIENT" then mkRat 55 100
  else mkRat 35 100

/-- The remote lookups used by `resolve_product_profile`
(`SourceClient.fetch_openfoodfacts` / `fetch_usda_profile`), modelled as
an oracle mapping the query to the rows the network would return. -/
structure SourceOracle where
  off : String → List (String × PyFloat)
  usda_branded : String → Option String → (List (String × PyFloat)) × String
  usda_generic : String → (List (String × PyFloat)) × String

/-- Step 1 of `resolve_product_profile`: merge the existing trusted rows,
each at the max of its stored confidence and its source-type baseline. -/
def step1Fold (existing : List (String × SourceValue)) (m : Merged) : Merged :=
  existing.foldl (fun m2 kv =>
    merge_values m2 [(kv.1, kv.2.value)] kv.2.source_type kv.2.source_ref
      kv.2.evidence_grade (max kv.2.confidence (baselineConfidence kv.2))
      kv.2.historical_exception) m

/-- Step 2 of `resolve_product_profile`: the UPC-backed OpenFoodFacts
values merge at fixed confidence 0.84 when the lookup returned data. -/
def resolveStep2 (source : SourceOracle) (upc : Option String) (m : Merged) : Merged :=
  match upc with
  | some u =>
    if (source.off u).isEmpty then m
    else merge_values m (source.off u) "MANUFACTURER"
      ("https://world.openfoodfacts.org/product/" ++ u) "OPENFOODFACTS" (mkRat 84 100) false
  | none => m

/-- Step 3 of `resolve_product_profile`: USDA branded at confidence 0.8. -/
def resolveStep3 (source : SourceOracle) (query_base : String) (upc : Option String)
    (m : Merged) : Merged :=
  if (source.usda_branded query_base upc).1.isEmpty then m
  else merge_values m (source.usda_branded query_base upc).1 "USDA"
    (source.usda_branded query_base upc).2 "USDA_BRANDED" (mkRat 8 10) false

/-- Step 4 of `resolve_product_profile`: USDA generic at confidence 0.7. -/
def resolveStep4 (source : SourceOracle) (ingredient_name : String) (m : Merged) : Merged :=
  if (source.usda_generic ingredient_name).1.isEmpty then m
  else merge_values m (source.usda_generic ingredient_name).1 "USDA"
    (source.usda_generic ingredient_name).2 "USDA_GENERIC" (mkRat 7 10) false

/-- Source `resolve_product_profile` from agent_nutrient_enrichment.py:
the four-step merge cascade (existing rows with confidence baselines,
OpenFoodFacts at 0.84, USDA branded at 0.8, USDA generic at 0.7). -/
def resolve_product_profile (source : SourceOracle) (product : ProductRow)
    (existing_values : List (String × SourceValue)) : Merged :=
  resolveStep4 source product.ingredient_name
    (resolveStep3 source
      ((product.ingredient_name ++ " " ++ product.brand ++ " "
        ++ product.product_name).trim)
      (normalize_upc product.upc)
      (resolveStep2 source (normalize_upc product.upc)
        (step1Fold existing_values [])))

/-- Source `resolved_by_product`: product id to merged profile (the mutable dict
of the fallback pass, modelled as a total function with `{}` default,
matching `setdefault(product_id, {})`). -/
abbrev RMaps : Type := String → Merged

/-- Write one product's profile back into `resolved_by_product`. -/
def updateRMaps (rm : RMaps) (pid : String) (m : Merged) : RMaps :=
  fun p => if p = pid then m else rm p

/-- The donor-preference sort key in `fill_from_similar_products`: the
number of resolved keys whose evidence grade is not one of the two
inferred-from-similar grades. -/
def donorCount (rm : RMaps) (p : ProductRow) : ℕ :=
  ((rm p.product_id).filter (fun kv =>
    !(kv.2.evidence_grade == "INFERRED_FROM_SIMILAR_PRODUCT"
      || kv.2.evidence_grade == "HISTORICAL_EXCEPTION"))).length

/-- Insert into a descending-by-count list, after entries of equal or
larger count (the arrangement Python's stable `sorted(..., reverse=True)`
produces). -/
def insertDesc (cnt : ProductRow → ℕ) (x : ProductRow) :
    List ProductRow → List ProductRow
  | [] => [x]
  | y :: ys => if cnt x ≤ cnt y then y :: insertDesc cnt x ys else x :: y :: ys

/-- Stable descending sort by count (insertion sort, processing the list
in original order so ties keep that order). -/
def sortDescBy (cnt : ProductRow → ℕ) (l : List ProductRow) : List ProductRow :=
  l.foldl (fun acc x => insertDesc cnt x acc) []

/-- Donor search inside `fill_from_similar_products`: the first donor in
preference order, other than the product itself, whose current profile
resolves the key. -/
def findDonor (rm : RMaps) (pid key : String) :
    List ProductRow → Option (PyFloat × String)
  | [] => none
  | d :: ds =>
    if d.product_id = pid then findDonor rm pid key ds
    else
      match mlookup key (rm d.product_id) with
      | some sv => some (sv.value, d.product_id)
      | none => findDonor rm pid key ds

/-- The body of the per-key loop in `fill_from_similar_products`
(agent_nutrient_enrichment.py, lines 1035-1077): skip already-resolved
keys, then sanity-forced zero, then donor copy at confidence 0.4, then
global/static fallback at confidence 0.25. -/
def fillProductKey (donors : List ProductRow) (global_fallbacks : List (String × ℚ))
    (historical_mode : Bool) (ingredient_key : String) (p : ProductRow)
    (rm : RMaps) (key : String) : RMaps :=
  if (mlookup key (rm p.product_id)).isSome then rm
  else
    match forced_zero_for_missing_key p key historical_mode with
    | some forced => updateRMaps rm p.product_id (msetValue (rm p.product_id) key forced)
    | none =>
      match findDonor rm p.product_id key donors with
      | some dv =>
        updateRMaps rm p.product_id (msetValue (rm p.product_id) key
          { value := dv.1
            source_type := "DERIVED"
            source_ref := "similar-product:" ++ dv.2
            evidence_grade := "INFERRED_FROM_SIMILAR_PRODUCT"
            confidence := mkRat 4 10
            historical_exception := historical_mode })
      | none =>
        match (mlookup key global_fallbacks).orElse
            (fun _ => mlookup key DEFAULT_SIMILAR_FALLBACKS) with
        | some gv =>
          updateRMaps rm p.product_id (msetValue (rm p.product_id) key
            { value := .fin gv
              source_type := "DERIVED"
              source_ref := "similar-product:global:" ++ ingredient_key
              evidence_grade := "INFERRED_FROM_SIMILAR_PRODUCT"
              confidence := mkRat 25 100
              historical_exception := historical_mode })
        | none => rm

/-- The per-product loop of the fallback pass: the per-key body folded
over all of `TARGET_KEYS`. -/
def fillProduct (donors : List ProductRow) (global_fallbacks : List (String × ℚ))
    (historical_mode : Bool) (ingredient_key : String) (rm : RMaps)
    (p : ProductRow) : RMaps :=
  TARGET_KEYS.foldl (fillProductKey donors global_fallbacks historical_mode ingredient_key p) rm

/-- The per-ingredient-group loop of the fallback pass: donors are sorted
once from the state at group entry; lookups during the loop see the
partially updated state, as the Python dict mutation does. -/
def fillGroup (global_fallbacks : List (String × ℚ)) (historical_mode : Bool)
    (rm : RMaps) (ingredient_key : String) (group : List ProductRow) : RMaps :=
  let donors := sortDescBy (donorCount rm) group
  group.foldl (fun rm2 p => fillProduct donors global_fallbacks historical_mode ingredient_key rm2 p) rm

/-- Source `fill_from_similar_products` from agent_nutrient_enrichment.py. -/
def fill_from_similar_products (products_by_ingredient : List (String × List ProductRow))
    (rm : RMaps) (global_fallbacks : List (String × ℚ)) (historical_mode : Bool) : RMaps :=
  products_by_ingredient.foldl
    (fun rm2 g => fillGroup global_fallbacks historical_mode rm2 g.1 g.2) rm

/-- Python `str.strip()` on a character list. -/
def trimChars (l : List Char) : List Char :=
  ((l.dropWhile Char.isWhitespace).reverse.dropWhile Char.isWhitespace).reverse

/-- Source `normalize_unit` from agent_nutrient_enrichment.py. Strip, lower-case
(ASCII case map) and substitute the two micro signs (single characters,
so the substring replace is a character map), then canonicalize. -/
def normalize_unit (unit : Option String) : String :=
  match unit with
  | none => ""
  | some s =>
    let u := String.mk ((trimChars s.data).map (fun c =>
      if c.toLower = 'μ' ∨ c.toLower = 'µ' then 'u' else c.toLower))
    if u = "ug" ∨ u = "mcg" then "mcg"
    else if u = "milligram" ∨ u = "milligrams" then "mg"
    else if u = "gram" ∨ u = "grams" then "g"
    else if u = "kcal" ∨ u = "calorie" ∨ u = "calories" then "kcal"
    else if u = "kj" ∨ u = "kilojoule" ∨ u = "kilojoules" then "kj"
    else if u = "iu" then "iu"
    else u

/-- The branch tree of `convert_unit` over the already-normalized unit
tokens `f` and `t` (the locals of the source function). -/
def convertNormalized (value : ℚ) (f t : String) (key : String) : Option ℚ :=
  if t = "kcal" then
    if f = "kcal" then some value
    else if f = "kj" then some (value / 4.184)
    else none
  else if key = "vitamin_d_mcg" ∧ f = "iu" then some (value * 0.025)
  else if key = "vitamin_a_mcg" ∧ f = "iu" then some (value * 0.3)
  else if t = "g" then
    if f = "g" then some value
    else if f = "mg" then some (value / 1000)
    else if f = "mcg" then some (value / 1000000)
    else none
  else if t = "mg" then
    if f = "mg" then some value
    else if f = "g" then some (value * 1000)
    else if f = "mcg" then some (value / 1000)
    else none
  else if t = "mcg" then
    if f = "mcg" then some value
    else if f = "mg" then some (value * 1000)
    else if f = "g" then some (value * 1000000)
    else none
  else none

/-- Source `convert_unit` from agent_nutrient_enrichment.py: normalize both unit
spellings, then apply the conversion branch tree. -/
def convert_unit (value : ℚ) (from_unit to_unit : String) (key : String) : Option ℚ :=
  convertNormalized value (normalize_unit (some from_unit)) (normalize_unit (some to_unit)) key

/-!
Definitions from scripts/agent_refresh_served_labels.py.
-/

/-- Source `NUTRIENT_KEYS` in agent_refresh_served_labels.py is the verbatim
same 40-key list as `TARGET_KEYS` in agent_nutrient_enrichment.py. -/
def NUTRIENT_KEYS : List String := TARGET_KEYS

/-- Source `INFERRED_GRADES` from agent_refresh_served_labels.py. -/
def INFERRED_GRADES : List String :=
  ["INFERRED_FROM_INGREDIENT", "INFERRED_FROM_SIMILAR_PRODUCT"]

/-- Python 3 `round` to an integer: round half to even. -/
def pyRound (q : ℚ) : ℤ :=
  if q - ⌊q⌋ < 1/2 then ⌊q⌋
  else if 1/2 < q - ⌊q⌋ then ⌊q⌋ + 1
  else if ⌊q⌋ % 2 = 0 then ⌊q⌋ else ⌊q⌋ + 1

/-- Source `round_calories` from agent_refresh_served_labels.py. -/
def round_calories (value : ℚ) : ℤ :=
  if value < 5 then 0
  else if value ≤ 50 then pyRound (value / 5) * 5
  else pyRound (value / 10) * 10

/-- Source `round_fat_like` from agent_refresh_served_labels.py. -/
def round_fat_like (value : ℚ) : ℚ :=
  if value < 1/2 then 0
  else if value < 5 then (pyRound (value * 2) : ℚ) / 2
  else (pyRound value : ℚ)

/-- Source `round_general_g` from agent_refresh_served_labels.py. -/
def round_general_g (value : ℚ) : ℤ :=
  if value < 1/2 then 0 else pyRound value

/-- Source `round_sodium_mg` from agent_refresh_served_labels.py. -/
def round_sodium_mg (value : ℚ) : ℤ :=
  if value < 5 then 0
  else if value ≤ 140 then pyRound (value / 5) * 5
  else pyRound (value / 10) * 10

/-- Source `round_cholesterol_mg` from agent_refresh_served_labels.py. -/
def round_cholesterol_mg (value : ℚ) : ℤ :=
  if value < 2 then 0 else pyRound (value / 5) * 5

/-- One normalized nutrient evidence row, as built by
`fetch_consumed_lots` (agent_refresh_served_labels.py, lines 339-350). -/
structure NutrientRowEv where
  key : String
  valuePer100g : Option ℚ
  sourceType : String
  sourceRef : String
  verificationStatus : String
  evidenceGrade : String
  confidenceScore : ℚ
  historicalException : Bool
deriving DecidableEq, Repr

/-- The count/flag part of the summary returned by `summarize_evidence`.
The `sourceRefs`, `gradeBreakdown` and `reasonCodes` output fields (pure
provenance listings computed alongside) are not modelled; no stated
property reads them. -/
structure EvidenceSummary where
  verifiedCount : ℕ
  inferredCount : ℕ
  exceptionCount : ℕ
  unverifiedCount : ℕ
  totalNutrientRows : ℕ
  provisional : Bool
deriving DecidableEq, Repr

/-- Source `summarize_evidence` from agent_refresh_served_labels.py: the loop
counters expressed as counts over the row list. -/
def summarize_evidence (rows : List NutrientRowEv) (synthetic_lot : Bool) : EvidenceSummary :=
  let verified := rows.countP (fun r => r.verificationStatus == "VERIFIED")
  let unverified := rows.countP (fun r => !(r.verificationStatus == "VERIFIED"))
  let inferred := rows.countP (fun r => INFERRED_GRADES.contains r.evidenceGrade)
  let exceptionN := rows.countP (fun r =>
    r.historicalException || r.evidenceGrade == "HISTORICAL_EXCEPTION")
  { verifiedCount := verified
    inferredCount := inferred
    exceptionCount := exceptionN
    unverifiedCount := unverified
    totalNutrientRows := rows.length
    provisional := decide (0 < unverified) || decide (0 < inferred)
      || decide (0 < exceptionN) || synthetic_lot }

/-- One consumed lot as assembled by `fetch_consumed_lots`: grams
consumed, the per-100g nutrient map, the evidence rows and the
synthetic-lot flag (identity/date columns are not read by any stated
property). -/
structure ConsumedLot where
  grams_consumed : ℚ
  nutrients_per_100g : String → ℚ
  nutrient_rows : List NutrientRowEv
  synthetic_lot : Bool

/-- The totals accumulation in `aggregate_nutrients`:
`totals[key] += value_per_100g * grams / 100` over all lots. -/
def aggregate_totals (lots : List ConsumedLot) (key : String) : ℚ :=
  (lots.map (fun lot => lot.nutrients_per_100g key * lot.grams_consumed / 100)).sum

/-- Source `aggregate_nutrients` from agent_refresh_served_labels.py: totals and
per-serving maps over `NUTRIENT_KEYS` (keys outside the table are absent,
read as 0), dividing by the servings floored to 1 when non-positive. -/
def aggregate_nutrients (lots : List ConsumedLot) (servings : ℚ) :
    (String → ℚ) × (String → ℚ) :=
  ((fun key => if key ∈ NUTRIENT_KEYS then aggregate_totals lots key else 0),
   (fun key => (if key ∈ NUTRIENT_KEYS then aggregate_totals lots key else 0)
      / (if servings > 0 then servings else 1)))

/-- The `roundedFda` block of `compute_sku_payload`. -/
structure RoundedFda where
  calories : ℤ
  fatG : ℚ
  satFatG : ℚ
  transFatG : ℚ
  cholesterolMg : ℤ
  sodiumMg : ℤ
  carbG : ℤ
  fiberG : ℤ
  sugarsG : ℤ
  addedSugarsG : ℤ
  proteinG : ℤ
deriving DecidableEq, Repr

/-- The `rounded_fda` computation inside `compute_sku_payload`
(agent_refresh_served_labels.py, lines 456-468). -/
def compute_rounded_fda (per_serving : String → ℚ) : RoundedFda :=
  { calories := round_calories (per_serving "kcal")
    fatG := round_fat_like (per_serving "fat_g")
    satFatG := round_fat_like (per_serving "sat_fat_g")
    transFatG := round_fat_like (per_serving "trans_fat_g")
    cholesterolMg := round_cholesterol_mg (per_serving "cholesterol_mg")
    sodiumMg := round_sodium_mg (per_serving "sodium_mg")
    carbG := round_general_g (per_serving "carb_g")
    fiberG := round_general_g (per_serving "fiber_g")
    sugarsG := round_general_g (per_serving "sugars_g")
    addedSugarsG := round_general_g (per_serving "added_sugars_g")
    proteinG := round_general_g (per_serving "protein_g") }

/-- The SKU-level evidence computation inside `compute_sku_payload`
(agent_refresh_served_labels.py, lines 490-491): summarize over every
contributing row of every consumed lot, with the synthetic flag the
disjunction over all lots. -/
def compute_sku_evidence (consumed_lots : List ConsumedLot) : EvidenceSummary :=
  summarize_evidence ((consumed_lots.map (fun lot => lot.nutrient_rows)).flatten)
    (consumed_lots.any (fun lot => lot.synthetic_lot))

/-- A `LabelSnapshot` row, the columns the snapshot builder writes
(timestamps and the JSON payload body are opaque strings here). -/
structure LabelSnapshot where
  id : String
  organizationId : String
  labelType : String
  externalRefId : String
  title : String
  payload : String
  version : ℕ
deriving DecidableEq, Repr

/-- The `(organizationId, labelType, externalRefId)` match used by
`next_label_version`. -/
def snapshotMatches (organization_id label_type external_ref_id : String)
    (s : LabelSnapshot) : Bool :=
  s.organizationId == organization_id && s.labelType == label_type
    && s.externalRefId == external_ref_id

/-- Source `next_label_version` from agent_refresh_served_labels.py:
`count(existing for the triple) + 1`. -/
def next_label_version (db : List LabelSnapshot)
    (organization_id label_type external_ref_id : String) : ℕ :=
  (db.filter (snapshotMatches organization_id label_type external_ref_id)).length + 1

/-- Source `insert_label_snapshot` from agent_refresh_served_labels.py: a pure
insert of a new row whose version is `next_label_version`; the database
is append-only under this operation. -/
def insert_label_snapshot (db : List LabelSnapshot)
    (id organization_id label_type external_ref_id title payload : String) :
    List LabelSnapshot :=
  db ++ [{ id := id
           organizationId := organization_id
           labelType := label_type
           externalRefId := external_ref_id
           title := title
           payload := payload
           version := next_label_version db organization_id label_type external_ref_id }]

/-- One snapshot-insert request (the arguments a `insert_label_snapshot`
call receives during a refresh run). -/
structure InsertReq where
  id : String
  organizationId : String
  labelType : String
  externalRefId : String
  title : String
  payload : String
deriving DecidableEq, Repr

/-- A sequence of snapshot builder runs: every write the builder performs
is an `insert_label_snapshot`; fold them over the store. -/
def runInserts (db : List LabelSnapshot) (reqs : List InsertReq) : List LabelSnapshot :=
  reqs.foldl (fun d r =>
    insert_label_snapshot d r.id r.organizationId r.labelType r.externalRefId r.title r.payload) db

/-- The versions of the snapshots matching a triple, in store order. -/
def versionsFor (db : List LabelSnapshot)
    (organization_id label_type external_ref_id : String) : List ℕ :=
  (db.filter (snapshotMatches organization_id label_type external_ref_id)).map
    (fun s => s.version)

/-- One call to `merge_values` during the cascade: the incoming per-key
values plus the per-call provenance and confidence. -/
structure MergeCall where
  incoming : List (String × PyFloat)
  source_type : String
  source_ref : String
  evidence_grade : String
  confidence : ℚ
  historical_exception : Bool

/-- A whole cascade: successive `merge_values` calls folded over the
merged map. -/
def runMerge (m : Merged) (calls : List MergeCall) : Merged :=
  calls.foldl (fun acc c =>
    merge_values acc c.incoming c.source_type c.source_ref c.evidence_grade
      c.confidence c.historical_exception) m

/-- The g/mg/mcg ladder exactly as spec §4.1 rule 3 words it, written
for comparison against `convert_unit`: powers of 1000 within the ladder,
absent for every other pairing. -/
def specLadder (value : ℚ) (f t : String) : Option ℚ :=
  if t = "g" then
    if f = "g" then some value
    else if f = "mg" then some (value / 1000)
    else if f = "mcg" then some (value / 1000000)
    else none
  else if t = "mg" then
    if f = "mg" then some value
    else if f = "g" then some (value * 1000)
    else if f = "mcg" then some (value / 1000)
    else none
  else if t = "mcg" then
    if f = "mcg" then some value
    else if f = "mg" then some (value * 1000)
    else if f = "g" then some (value * 1000000)
    else none
  else none

/-- The two consumed lots of the spec's label scenario: 150 g at
kcal 200/100g and 50 g at kcal 50/100g. -/
def scenarioLots : List ConsumedLot :=
  [{ grams_consumed := 150
     nutrients_per_100g := fun k => if k = "kcal" then 200 else 0
     nutrient_rows := []
     synthetic_lot := false },
   { grams_consumed := 50
     nutrients_per_100g := fun k => if k = "kcal" then 50 else 0
     nutrient_rows := []
     synthetic_lot := false }]

/-- An oracle whose every lookup misses (no network data). -/
def emptyOracle : SourceOracle :=
  { off := fun _ => []
    usda_branded := fun _ _ => ([], "")
    usda_generic := fun _ => ([], "") }

/-- Concrete product for the C3 counterexample: has a UPC, no animal
protein tokens. -/
def c3Product : ProductRow :=
  { product_id := "p-c3"
    organization_id := "org"
    product_name := "Widget Mix"
    brand := ""
    upc := some "00000000017"
    ingredient_id := "ing-c3"
    ingredient_key := "widget"
    ingredient_name := "Widget" }

/-- Oracle for the C3 counterexample: the UPC-backed manufacturer lookup
returns kcal = 250 per 100 g. -/
def c3Oracle : SourceOracle :=
  { off := fun _ => [("kcal", .fin 250)]
    usda_branded := fun _ _ => ([], "")
    usda_generic := fun _ => ([], "") }

/-- The existing MANUAL row of the C3 scenario: kcal = 100 at stored
confidence 0.95. -/
def c3ManualRow : SourceValue :=
  { value := .fin 100
    source_type := "MANUAL"
    source_ref := "manual-ref"
    evidence_grade := "VERIFIED_MANUAL"
    confidence := mkRat 95 100
    historical_exception := false }

/-- Existing rows for the C3 counterexample. -/
def c3Existing : List (String × SourceValue) := [("kcal", c3ManualRow)]

/-- Concrete animal-protein product for the C2 scenario/counterexample
("Grilled Chicken Breast", no brand, no exclusion tokens). -/
def c2Product : ProductRow :=
  { product_id := "p-c2"
    organization_id := "org"
    product_name := "Grilled Chicken Breast"
    brand := ""
    upc := none
    ingredient_id := "ing-c2"
    ingredient_key := "chicken_breast"
    ingredient_name := "Chicken Breast" }

/-- A cascade-resolved carb value for the C2 counterexample: carb_g was
resolved by USDA branded data (step 3) at 30 g/100g before the fallback
pass runs. -/
def c2CarbThirty : SourceValue :=
  { value := .fin 30
    source_type := "USDA"
    source_ref := "usda-ref"
    evidence_grade := "USDA_BRANDED"
    confidence := mkRat 8 10
    historical_exception := false }

/-- Initial resolver state for the C2 counterexample: the chicken product
already has carb_g = 30 from the cascade. -/
def c2Initial : RMaps :=
  fun pid => if pid = "p-c2" then [("carb_g", c2CarbThirty)] else []

/-- Existing row with an infinite stored value for the C8 counterexample
(`parse_number` and `merge_values` reject NaN and negatives but pass
`float('inf')` through). -/
def c8Existing : List (String × SourceValue) :=
  [("kcal", { value := .inf
              source_type := "MANUAL"
              source_ref := "manual-ref"
              evidence_grade := "VERIFIED_MANUAL"
              confidence := mkRat 9 10
              historical_exception := false })]

/-- Product for the C8 counterexample. -/
def c8Product : ProductRow :=
  { product_id := "p-c8"
    organization_id := "org"
    product_name := "Widget"
    brand := ""
    upc := none
    ingredient_id := "ing-c8"
    ingredient_key := "widget"
    ingredient_name := "Widget" }

/-- Resolver state after the cascade for the C8 counterexample. -/
def c8Initial : RMaps :=
  fun pid =>
    if pid = "p-c8" then resolve_product_profile emptyOracle c8Product c8Existing else []

/-- Build one snapshot row from an insert request plus the computed
version (the row `insert_label_snapshot` writes). -/
def mkSnapshot (id organization_id label_type external_ref_id title payload : String)
    (version : ℕ) : LabelSnapshot :=
  { id := id
    organizationId := organization_id
    labelType := label_type
    externalRefId := external_ref_id
    title := title
    payload := payload
    version := version }

/-- A single unverified USDA-branded evidence row (concrete test row). -/
def c4Row : NutrientRowEv :=
  { key := "kcal"
    valuePer100g := some 1
    sourceType := "USDA"
    sourceRef := "r"
    verificationStatus := "NEEDS_REVIEW"
    evidenceGrade := "USDA_BRANDED"
    confidenceScore := 0
    historicalException := false }

/-- A single non-synthetic lot carrying `c4Row` (concrete test lot). -/
def c4Lot : ConsumedLot :=
  { grams_consumed := 1
    nutrients_per_100g := fun _ => 0
    nutrient_rows := [c4Row]
    synthetic_lot := false }

/-- Predicate: the key is resolved with confidence at least `c`. -/
def confAtLeast (m : Merged) (k : String) (c : ℚ) : Prop :=
  ∃ w, mlookup k m = some w ∧ c ≤ w.confidence

/-- Every value stored in the map is non-NaN and non-negative. -/
def goodMap (m : Merged) : Prop :=
  ∀ k w, mlookup k m = some w → w.value.isNaN = false ∧ w.value.ltZero = false

/-- Every profile in the per-product state is good. -/
def goodState (rm : RMaps) : Prop := ∀ pid, goodMap (rm pid)

/-!
### Generic fold and map lemmas
-/

theorem foldl_preserve {α β : Type _} {P : β → Prop} {f : β → α → β}
    (hpres : ∀ b a, P b → P (f b a)) :
    ∀ (l : List α) (b : β), P b → P (l.foldl f b)
  | [], _, hb => hb
  | a :: as, b, hb => foldl_preserve hpres as (f b a) (hpres b a hb)

theorem foldl_establish {α β : Type _} {P : β → Prop} {f : β → α → β}
    (hpres : ∀ b a, P b → P (f b a)) (x : α) (hest : ∀ b, P (f b x)) :
    ∀ (l : List α) (b : β), x ∈ l → P (l.foldl f b)
  | a :: as, b, hx => by
    rcases List.mem_cons.mp hx with heq | hx
    · subst heq
      exact foldl_preserve hpres as (f b x) (hest b)
    · exact foldl_establish hpres x hest as (f b a) hx

theorem mlookup_append_of_none {α : Type} (k : String) (m1 m2 : List (String × α))
    (h : mlookup k m1 = none) : mlookup k (m1 ++ m2) = mlookup k m2 := by
  induction m1 with
  | nil => simp
  | cons p m ih =>
    obtain ⟨a, b⟩ := p
    by_cases hk : k = a
    · simp [mlookup, hk] at h
    · simp only [mlookup, hk, if_false, List.cons_append] at h ⊢
      exact ih h

theorem mlookup_append_single_ne {α : Type} (k k' : String) (m : List (String × α))
    (v : α) (h : k' ≠ k) : mlookup k' (m ++ [(k, v)]) = mlookup k' m := by
  induction m with
  | nil => simp [mlookup, h]
  | cons p m ih =>
    obtain ⟨a, b⟩ := p
    by_cases hk : k' = a
    · simp [mlookup, hk]
    · simp only [List.cons_append, mlookup, hk, if_false]
      exact ih

theorem mlookup_map_replace_self (k : String) (m : Merged) (v : SourceValue)
    (hs : (mlookup k m).isSome) :
    mlookup k (m.map (fun p => if p.1 = k then (k, v) else p)) = some v := by
  induction m with
  | nil => simp [mlookup] at hs
  | cons p m ih =>
    obtain ⟨a, b⟩ := p
    rw [List.map_cons]
    by_cases hk : a = k
    · subst hk
      rw [if_pos (show ((a, b) : String × SourceValue).1 = a from rfl)]
      simp [mlookup]
    · rw [if_neg (show ¬ ((a, b) : String × SourceValue).1 = k from hk)]
      have hk2 : ¬ k = a := fun hh => hk hh.symm
      simp only [mlookup, hk2, if_false] at hs ⊢
      exact ih hs

theorem mlookup_map_replace_ne (k k' : String) (m : Merged) (v : SourceValue)
    (h : k' ≠ k) :
    mlookup k' (m.map (fun p => if p.1 = k then (k, v) else p)) = mlookup k' m := by
  induction m with
  | nil => simp
  | cons p m ih =>
    obtain ⟨a, b⟩ := p
    rw [List.map_cons]
    by_cases hk : a = k
    · subst hk
      rw [if_pos (show ((a, b) : String × SourceValue).1 = a from rfl)]
      simp only [mlookup, h, if_false]
      exact ih
    · rw [if_neg (show ¬ ((a, b) : String × SourceValue).1 = k from hk)]
      by_cases hk3 : k' = a
      · simp [mlookup, hk3]
      · simp only [mlookup, hk3, if_false]
        exact ih

theorem mlookup_msetValue_self (m : Merged) (k : String) (v : SourceValue) :
    mlookup k (msetValue m k v) = some v := by
  unfold msetValue
  split_ifs with hs
  · exact mlookup_map_replace_self k m v hs
  · have hnone : mlookup k m = none := by
      cases h : mlookup k m with
      | none => rfl
      | some w => rw [h] at hs; simp at hs
    rw [mlookup_append_of_none k m [(k, v)] hnone]
    simp [mlookup]

theorem mlookup_msetValue_ne (m : Merged) (k k' : String) (v : SourceValue)
    (h : k' ≠ k) : mlookup k' (msetValue m k v) = mlookup k' m := by
  unfold msetValue
  split_ifs with hs
  · exact mlookup_map_replace_ne k k' m v h
  · exact mlookup_append_single_ne k k' m v h

theorem mlookup_msetValue_isSome (m : Merged) (k k' : String) (v : SourceValue)
    (hs : (mlookup k' m).isSome) : (mlookup k' (msetValue m k v)).isSome := by
  by_cases hk : k' = k
  · subst hk
    rw [mlookup_msetValue_self]
    rfl
  · rw [mlookup_msetValue_ne m k k' v hk]
    exact hs

/-- Round-half-to-even lands within half a unit of the input. -/
theorem abs_pyRound_sub_le (q : ℚ) : |(pyRound q : ℚ) - q| ≤ 1 / 2 := by
  have h0 : (⌊q⌋ : ℚ) ≤ q := Int.floor_le q
  have h1 : q < (⌊q⌋ : ℚ) + 1 := Int.lt_floor_add_one q
  have hc : ((⌊q⌋ + 1 : ℤ) : ℚ) = (⌊q⌋ : ℚ) + 1 := by push_cast; ring
  unfold pyRound
  split_ifs with hr hr2 he
  · rw [abs_le]
    constructor <;> linarith
  · rw [hc, abs_le]
    constructor <;> linarith
  · have hr3 : q - (⌊q⌋ : ℚ) = 1 / 2 := le_antisymm (not_lt.mp hr2) (not_lt.mp hr)
    rw [abs_le]
    constructor <;> linarith
  · have hr3 : q - (⌊q⌋ : ℚ) = 1 / 2 := le_antisymm (not_lt.mp hr2) (not_lt.mp hr)
    rw [hc, abs_le]
    constructor <;> linarith

/-- C5: the regulatory rounding step functions satisfy the stated
boundary values — roundCalories(4.9)=0, roundCalories(5.0)=5,
roundCalories(50)=50, roundCalories(51)=50, roundSodium(140)=140,
roundSodium(141)=140 — and calories round to 0 below 5, to a nearest
multiple of 5 up to 50, and to a nearest multiple of 10 above 50. -/
theorem C5_rounding_boundaries :
    round_calories 4.9 = 0 ∧ round_calories 5 = 5 ∧ round_calories 50 = 50
      ∧ round_calories 51 = 50 ∧ round_sodium_mg 140 = 140
      ∧ round_sodium_mg 141 = 140
      ∧ (∀ v : ℚ, v < 5 → round_calories v = 0)
      ∧ (∀ v : ℚ, 5 ≤ v → v ≤ 50 →
          (5 : ℤ) ∣ round_calories v ∧ |(round_calories v : ℚ) - v| ≤ 5 / 2)
      ∧ (∀ v : ℚ, 50 < v →
          (10 : ℤ) ∣ round_calories v ∧ |(round_calories v : ℚ) - v| ≤ 5) := by
  refine ⟨?_, ?_, ?_, ?_, ?_, ?_, ?_, ?_, ?_⟩
  · norm_num [round_calories, pyRound]
  · norm_num [round_calories, pyRound]
  · norm_num [round_calories, pyRound]
  · norm_num [round_calories, pyRound]
  · norm_num [round_sodium_mg, pyRound]
  · norm_num [round_sodium_mg, pyRound]
  · intro v hv
    unfold round_calories
    rw [if_pos hv]
  · intro v h5 h50
    unfold round_calories
    rw [if_neg (not_lt.mpr h5), if_pos h50]
    refine ⟨⟨pyRound (v / 5), by ring⟩, ?_⟩
    have hb := abs_pyRound_sub_le (v / 5)
    have h2 : ((pyRound (v / 5) * 5 : ℤ) : ℚ) - v = 5 * ((pyRound (v / 5) : ℚ) - v / 5) := by
      push_cast
      ring
    rw [h2, abs_mul, abs_of_pos (by norm_num : (0 : ℚ) < 5)]
    linarith
  · intro v h50
    unfold round_calories
    rw [if_neg (by linarith : ¬ v < 5), if_neg (not_le.mpr h50)]
    refine ⟨⟨pyRound (v / 10), by ring⟩, ?_⟩
    have hb := abs_pyRound_sub_le (v / 10)
    have h2 : ((pyRound (v / 10) * 10 : ℤ) : ℚ) - v
        = 10 * ((pyRound (v / 10) : ℚ) - v / 10) := by
      push_cast
      ring
    rw [h2, abs_mul, abs_of_pos (by norm_num : (0 : ℚ) < 10)]
    linarith

/-- Closed instance of C5's universally quantified clauses at v = 7 and
v = 162.5. -/
theorem C5_rounding_boundaries_witness :
    ((5 : ℚ) ≤ 7 ∧ (7 : ℚ) ≤ 50
      ∧ ((5 : ℤ) ∣ round_calories 7 ∧ |(round_calories 7 : ℚ) - 7| ≤ 5 / 2))
    ∧ ((50 : ℚ) < 162.5
      ∧ ((10 : ℤ) ∣ round_calories 162.5 ∧ |(round_calories 162.5 : ℚ) - 162.5| ≤ 5)) :=
  ⟨⟨by norm_num, by norm_num,
      C5_rounding_boundaries.2.2.2.2.2.2.2.1 7 (by norm_num) (by norm_num)⟩,
   ⟨by norm_num,
      C5_rounding_boundaries.2.2.2.2.2.2.2.2 162.5 (by norm_num)⟩⟩

/-- C6: label totals are the consumed-mass-weighted sums of per-100g
values, per-serving divides by the servings (floored to 1 when ≤ 0), and
the stated scenario (2 servings; 150 g at kcal 200/100g plus 50 g at
kcal 50/100g) yields total 325, per-serving 162.5 and rounded calories
160. -/
theorem C6_aggregate_and_scenario :
    (∀ (lots : List ConsumedLot) (s : ℚ) (k : String), k ∈ NUTRIENT_KEYS →
        (aggregate_nutrients lots s).1 k
            = (lots.map (fun lot => lot.nutrients_per_100g k * lot.grams_consumed / 100)).sum
          ∧ (0 < s → (aggregate_nutrients lots s).2 k = (aggregate_nutrients lots s).1 k / s)
          ∧ (s ≤ 0 → (aggregate_nutrients lots s).2 k = (aggregate_nutrients lots s).1 k))
    ∧ (aggregate_nutrients scenarioLots 2).1 "kcal" = 325
    ∧ (aggregate_nutrients scenarioLots 2).2 "kcal" = 162.5
    ∧ round_calories ((aggregate_nutrients scenarioLots 2).2 "kcal") = 160 := by
  have hmem : "kcal" ∈ NUTRIENT_KEYS := by
    unfold NUTRIENT_KEYS TARGET_KEYS
    exact List.mem_cons_self _ _
  have htot : aggregate_totals scenarioLots "kcal" = 325 := by
    unfold aggregate_totals scenarioLots
    norm_num
  have h1 : (aggregate_nutrients scenarioLots 2).1 "kcal" = 325 := by
    dsimp only [aggregate_nutrients]
    rw [if_pos hmem]
    exact htot
  have h2 : (aggregate_nutrients scenarioLots 2).2 "kcal" = 162.5 := by
    dsimp only [aggregate_nutrients]
    rw [if_pos hmem, if_pos (by norm_num : (2 : ℚ) > 0), htot]
    norm_num
  refine ⟨?_, h1, h2, ?_⟩
  · intro lots s k hk
    refine ⟨?_, ?_, ?_⟩
    · dsimp only [aggregate_nutrients]
      rw [if_pos hk]
      rfl
    · intro hs
      dsimp only [aggregate_nutrients]
      rw [if_pos hs]
    · intro hs
      dsimp only [aggregate_nutrients]
      rw [if_neg (not_lt.mpr hs), div_one]
  · rw [h2]
    norm_num [round_calories, pyRound]

/-- Closed instance of C6's universally quantified clause at the
scenario input. -/
theorem C6_aggregate_and_scenario_witness :
    "kcal" ∈ NUTRIENT_KEYS
      ∧ ((aggregate_nutrients scenarioLots 2).1 "kcal"
            = (scenarioLots.map
                (fun lot => lot.nutrients_per_100g "kcal" * lot.grams_consumed / 100)).sum
          ∧ (0 < (2 : ℚ) → (aggregate_nutrients scenarioLots 2).2 "kcal"
              = (aggregate_nutrients scenarioLots 2).1 "kcal" / 2)
          ∧ ((2 : ℚ) ≤ 0 → (aggregate_nutrients scenarioLots 2).2 "kcal"
              = (aggregate_nutrients scenarioLots 2).1 "kcal")) :=
  ⟨by unfold NUTRIENT_KEYS TARGET_KEYS; exact List.mem_cons_self _ _,
   C6_aggregate_and_scenario.1 scenarioLots 2 "kcal"
     (by unfold NUTRIENT_KEYS TARGET_KEYS; exact List.mem_cons_self _ _)⟩

/-- C4: the evidence summary is provisional exactly when some row is
unverified, inferred or an exception, or the synthetic-lot flag is set;
and a provisional contributing lot makes the SKU-level summary (computed
over all contributing rows of all lots) provisional. -/
theorem C4_provisional_iff_and_propagation :
    (∀ (rows : List NutrientRowEv) (sl : Bool),
        (summarize_evidence rows sl).provisional = true ↔
          (0 < (summarize_evidence rows sl).unverifiedCount
            ∨ 0 < (summarize_evidence rows sl).inferredCount
            ∨ 0 < (summarize_evidence rows sl).exceptionCount
            ∨ sl = true))
    ∧ (∀ (lots : List ConsumedLot), ∀ lot ∈ lots,
        (summarize_evidence lot.nutrient_rows lot.synthetic_lot).provisional = true →
        (compute_sku_evidence lots).provisional = true) := by
  constructor
  · intro rows sl
    unfold summarize_evidence
    simp only [Bool.or_eq_true, decide_eq_true_iff]
    tauto
  · intro lots lot hmem hprov
    have hsub : ∀ (p : NutrientRowEv → Bool), 0 < lot.nutrient_rows.countP p →
        0 < ((lots.map (fun l => l.nutrient_rows)).flatten).countP p := by
      intro p hp
      rw [List.countP_pos_iff] at hp ⊢
      obtain ⟨r, hr, hpr⟩ := hp
      exact ⟨r, List.mem_flatten.mpr ⟨lot.nutrient_rows,
        List.mem_map_of_mem _ hmem, hr⟩, hpr⟩
    simp only [summarize_evidence, Bool.or_eq_true, decide_eq_true_iff] at hprov
    simp only [compute_sku_evidence, summarize_evidence, Bool.or_eq_true,
      decide_eq_true_iff]
    rcases hprov with ((hp | hp) | hp) | hp
    · exact Or.inl (Or.inl (Or.inl (hsub _ hp)))
    · exact Or.inl (Or.inl (Or.inr (hsub _ hp)))
    · exact Or.inl (Or.inr (hsub _ hp))
    · refine Or.inr ?_
      rw [List.any_eq_true]
      exact ⟨lot, hmem, hp⟩

/-- Closed instance of C4 at a one-row, one-lot input: an unverified row
makes both the lot summary and the SKU summary provisional. -/
theorem C4_provisional_iff_and_propagation_witness :
    (summarize_evidence c4Lot.nutrient_rows c4Lot.synthetic_lot).provisional = true
      ∧ (compute_sku_evidence [c4Lot]).provisional = true := by
  constructor
  · rfl
  · exact C4_provisional_iff_and_propagation.2 [c4Lot] c4Lot
      (List.mem_cons_self _ _) rfl

theorem range'_one_concat (n : ℕ) :
    List.range' 1 (n + 1) = List.range' 1 n ++ [n + 1] := by
  rw [List.range'_concat]
  simp [Nat.add_comm]

theorem versionsFor_insert_step (db : List LabelSnapshot)
    (id oid lt ref title payload : String)
    (h : ∀ o l r, versionsFor db o l r
        = List.range' 1 ((db.filter (snapshotMatches o l r)).length)) :
    ∀ o l r, versionsFor (insert_label_snapshot db id oid lt ref title payload) o l r
        = List.range' 1
            (((insert_label_snapshot db id oid lt ref title payload).filter
              (snapshotMatches o l r)).length) := by
  intro o l r
  unfold insert_label_snapshot next_label_version
  unfold versionsFor at h ⊢
  rw [List.filter_append, List.map_append, List.length_append]
  by_cases hm : snapshotMatches o l r
      { id := id, organizationId := oid, labelType := lt, externalRefId := ref,
        title := title, payload := payload,
        version := (db.filter (snapshotMatches oid lt ref)).length + 1 }
  · have hm2 := hm
    simp only [snapshotMatches, Bool.and_eq_true, beq_iff_eq] at hm2
    obtain ⟨⟨ho, hl⟩, hr⟩ := hm2
    subst ho
    subst hl
    subst hr
    simp only [List.filter_singleton, hm, cond_true, List.map_cons, List.map_nil,
      List.length_cons, List.length_nil]
    rw [h, range'_one_concat]
  · rw [Bool.not_eq_true] at hm
    simp only [List.filter_singleton, hm, cond_false, List.map_nil, List.append_nil,
      List.length_nil, Nat.add_zero]
    exact h o l r

theorem versionsFor_runInserts (reqs : List InsertReq) :
    ∀ (db : List LabelSnapshot),
      (∀ o l r, versionsFor db o l r
          = List.range' 1 ((db.filter (snapshotMatches o l r)).length)) →
      ∀ o l r, versionsFor (runInserts db reqs) o l r
          = List.range' 1 (((runInserts db reqs).filter (snapshotMatches o l r)).length) := by
  induction reqs with
  | nil => exact fun db h => h
  | cons q qs ih =>
    intro db h
    exact ih _ (versionsFor_insert_step db q.id q.organizationId q.labelType
      q.externalRefId q.title q.payload h)

/-- C7: a snapshot insert appends one row whose version is the count of
existing rows for the `(organizationId, labelType, externalRefId)` triple
plus one, leaving all existing rows untouched; hence after any sequence
of builder inserts the versions for a triple are exactly 1..n in insert
order, strictly increasing. -/
theorem C7_snapshot_versioning :
    (∀ (db : List LabelSnapshot) (id oid lt ref title payload : String),
        insert_label_snapshot db id oid lt ref title payload
          = db ++ [mkSnapshot id oid lt ref title payload
              ((db.filter (snapshotMatches oid lt ref)).length + 1)])
    ∧ (∀ (reqs : List InsertReq) (oid lt ref : String),
        versionsFor (runInserts [] reqs) oid lt ref
          = List.range' 1
              (((runInserts [] reqs).filter (snapshotMatches oid lt ref)).length))
    ∧ (∀ (reqs : List InsertReq) (oid lt ref : String),
        List.Chain' (· < ·) (versionsFor (runInserts [] reqs) oid lt ref)) := by
  have hbase : ∀ o l r, versionsFor ([] : List LabelSnapshot) o l r
      = List.range' 1 ((([] : List LabelSnapshot).filter (snapshotMatches o l r)).length) := by
    intro o l r
    rfl
  refine ⟨?_, ?_, ?_⟩
  · intro db id oid lt ref title payload
    rfl
  · intro reqs oid lt ref
    exact versionsFor_runInserts reqs [] hbase oid lt ref
  · intro reqs oid lt ref
    rw [versionsFor_runInserts reqs [] hbase oid lt ref]
    exact (List.pairwise_lt_range' 1 _).chain'

/-- C9: convert_unit's rules in order — a kcal target accepts kcal as-is
and kJ divided by 4.184 and nothing else; an IU source is scaled by
0.025 for vitamin_d_mcg and by 0.3 for vitamin_a_mcg; otherwise
conversion is exactly the g/mg/mcg power-of-1000 ladder, and every other
pairing is absent. -/
theorem C9_convert_unit_rules :
    ∀ (v : ℚ) (fu tu key : String),
      (normalize_unit (some tu) = "kcal" →
        convert_unit v fu tu key =
          (if normalize_unit (some fu) = "kcal" then some v
           else if normalize_unit (some fu) = "kj" then some (v / 4.184)
           else none))
      ∧ (¬ normalize_unit (some tu) = "kcal" → key = "vitamin_d_mcg" →
          normalize_unit (some fu) = "iu" →
          convert_unit v fu tu key = some (v * 0.025))
      ∧ (¬ normalize_unit (some tu) = "kcal" → key = "vitamin_a_mcg" →
          normalize_unit (some fu) = "iu" →
          convert_unit v fu tu key = some (v * 0.3))
      ∧ (¬ normalize_unit (some tu) = "kcal" →
          ¬ (normalize_unit (some fu) = "iu"
              ∧ (key = "vitamin_d_mcg" ∨ key = "vitamin_a_mcg")) →
          convert_unit v fu tu key
            = specLadder v (normalize_unit (some fu)) (normalize_unit (some tu))) := by
  intro v fu tu key
  unfold convert_unit
  refine ⟨?_, ?_, ?_, ?_⟩
  · intro ht
    unfold convertNormalized
    rw [if_pos ht]
  · intro ht hk hf
    unfold convertNormalized
    rw [if_neg ht, if_pos ⟨hk, hf⟩]
  · intro ht hk hf
    unfold convertNormalized
    rw [if_neg ht, if_neg ?hd, if_pos ⟨hk, hf⟩]
    case hd =>
      rintro ⟨hkd, -⟩
      rw [hk] at hkd
      exact absurd hkd (by decide)
  · intro ht hni
    unfold convertNormalized specLadder
    rw [if_neg ht,
      if_neg (fun hc : key = "vitamin_d_mcg" ∧ _ => hni ⟨hc.2, Or.inl hc.1⟩),
      if_neg (fun hc : key = "vitamin_a_mcg" ∧ _ => hni ⟨hc.2, Or.inr hc.1⟩)]

/-- Closed instance of C9 at v = 2, IU source, mcg target and the
vitamin D key: the IU special case scales by 0.025. -/
theorem C9_convert_unit_rules_witness :
    ¬ normalize_unit (some "mcg") = "kcal"
      ∧ normalize_unit (some "IU") = "iu"
      ∧ convert_unit 2 "IU" "mcg" "vitamin_d_mcg" = some (2 * 0.025) :=
  ⟨by decide, by decide,
   (C9_convert_unit_rules 2 "IU" "mcg" "vitamin_d_mcg").2.1 (by decide) rfl (by decide)⟩

/-!
### Merge cascade lemmas
-/

theorem mergeStep_not_target (st sr eg : String) (conf : ℚ) (he : Bool)
    (m : Merged) (kv : String × PyFloat)
    (h : (mlookup kv.1 TARGET_UNIT_BY_KEY).isNone) :
    mergeStep st sr eg conf he m kv = m := by
  unfold mergeStep
  rw [if_pos h]

theorem mergeStep_nan (st sr eg : String) (conf : ℚ) (he : Bool)
    (m : Merged) (kv : String × PyFloat) (h : kv.2.isNaN = true) :
    mergeStep st sr eg conf he m kv = m := by
  unfold mergeStep
  split_ifs <;> rfl

theorem mergeStep_neg (st sr eg : String) (conf : ℚ) (he : Bool)
    (m : Merged) (kv : String × PyFloat) (h : kv.2.ltZero = true) :
    mergeStep st sr eg conf he m kv = m := by
  unfold mergeStep
  split_ifs <;> rfl

theorem mergeStep_valid_eq (st sr eg : String) (conf : ℚ) (he : Bool)
    (m : Merged) (k : String) (v : PyFloat)
    (hT : (mlookup k TARGET_UNIT_BY_KEY).isSome)
    (hnan : v.isNaN = false) (hneg : v.ltZero = false) :
    mergeStep st sr eg conf he m (k, v)
      = (match mlookup k m with
         | none => msetValue m k ⟨v, st, sr, eg, conf, he⟩
         | some existing =>
           if conf > existing.confidence then msetValue m k ⟨v, st, sr, eg, conf, he⟩
           else m) := by
  have hT2 : (mlookup k TARGET_UNIT_BY_KEY).isNone = false := by
    cases hx : mlookup k TARGET_UNIT_BY_KEY with
    | none => rw [hx] at hT; simp at hT
    | some u => rfl
  unfold mergeStep
  rw [if_neg (by simp [hT2]), if_neg (by simp [hnan]), if_neg (by simp [hneg])]

theorem mergeStep_lookup_ne (st sr eg : String) (conf : ℚ) (he : Bool)
    (m : Merged) (kv : String × PyFloat) (k' : String) (h : k' ≠ kv.1) :
    mlookup k' (mergeStep st sr eg conf he m kv) = mlookup k' m := by
  unfold mergeStep
  split_ifs with h1 h2 h3
  · rfl
  · rfl
  · rfl
  · cases hm : mlookup kv.1 m with
    | none =>
      simp only [hm]
      exact mlookup_msetValue_ne m kv.1 k' _ h
    | some e =>
      simp only [hm]
      split_ifs with hc
      · exact mlookup_msetValue_ne m kv.1 k' _ h
      · rfl

theorem mergeStep_confAtLeast (st sr eg : String) (conf : ℚ) (he : Bool)
    (m : Merged) (kv : String × PyFloat) (k : String) (c : ℚ)
    (h : confAtLeast m k c) :
    confAtLeast (mergeStep st sr eg conf he m kv) k c := by
  obtain ⟨k1, v1⟩ := kv
  by_cases hk : k = k1
  · subst hk
    obtain ⟨w, hw, hcw⟩ := h
    by_cases h1 : (mlookup k TARGET_UNIT_BY_KEY).isNone = true
    · rw [mergeStep_not_target st sr eg conf he m (k, v1) h1]
      exact ⟨w, hw, hcw⟩
    · by_cases h2 : v1.isNaN = true
      · rw [mergeStep_nan st sr eg conf he m (k, v1) h2]
        exact ⟨w, hw, hcw⟩
      · by_cases h3 : v1.ltZero = true
        · rw [mergeStep_neg st sr eg conf he m (k, v1) h3]
          exact ⟨w, hw, hcw⟩
        · have hT : (mlookup k TARGET_UNIT_BY_KEY).isSome = true := by
            cases hx : mlookup k TARGET_UNIT_BY_KEY with
            | none => rw [hx] at h1; exact absurd rfl h1
            | some u => rfl
          rw [mergeStep_valid_eq st sr eg conf he m k v1 hT
            (Bool.eq_false_iff.mpr h2) (Bool.eq_false_iff.mpr h3)]
          simp only [hw]
          split_ifs with hc
          · exact ⟨⟨v1, st, sr, eg, conf, he⟩, mlookup_msetValue_self m k _,
              le_of_lt (lt_of_le_of_lt hcw hc)⟩
          · exact ⟨w, hw, hcw⟩
  · obtain ⟨w, hw, hcw⟩ := h
    refine ⟨w, ?_, hcw⟩
    rw [mergeStep_lookup_ne st sr eg conf he m (k1, v1) k hk]
    exact hw

theorem mergeStep_establishes (st sr eg : String) (conf : ℚ) (he : Bool)
    (m : Merged) (k : String) (v : PyFloat)
    (hT : (mlookup k TARGET_UNIT_BY_KEY).isSome)
    (hnan : v.isNaN = false) (hneg : v.ltZero = false) :
    confAtLeast (mergeStep st sr eg conf he m (k, v)) k conf := by
  rw [mergeStep_valid_eq st sr eg conf he m k v hT hnan hneg]
  cases hm : mlookup k m with
  | none =>
    exact ⟨⟨v, st, sr, eg, conf, he⟩, mlookup_msetValue_self m k _, le_refl _⟩
  | some e =>
    dsimp only
    split_ifs with hc
    · exact ⟨⟨v, st, sr, eg, conf, he⟩, mlookup_msetValue_self m k _, le_refl _⟩
    · exact ⟨e, hm, le_of_not_lt hc⟩

theorem merge_values_confAtLeast (m : Merged) (incoming : List (String × PyFloat))
    (st sr eg : String) (conf : ℚ) (he : Bool) (k : String) (c : ℚ)
    (h : confAtLeast m k c) :
    confAtLeast (merge_values m incoming st sr eg conf he) k c :=
  foldl_preserve (fun b a hb => mergeStep_confAtLeast st sr eg conf he b a k c hb)
    incoming m h

theorem merge_values_establishes (m : Merged) (incoming : List (String × PyFloat))
    (st sr eg : String) (conf : ℚ) (he : Bool) (k : String) (v : PyFloat)
    (hmem : (k, v) ∈ incoming)
    (hT : (mlookup k TARGET_UNIT_BY_KEY).isSome)
    (hnan : v.isNaN = false) (hneg : v.ltZero = false) :
    confAtLeast (merge_values m incoming st sr eg conf he) k conf :=
  foldl_establish (fun b a hb => mergeStep_confAtLeast st sr eg conf he b a k conf hb)
    (k, v) (fun b => mergeStep_establishes st sr eg conf he b k v hT hnan hneg)
    incoming m hmem

theorem runMerge_confAtLeast (m : Merged) (calls : List MergeCall) (k : String)
    (c : ℚ) (h : confAtLeast m k c) : confAtLeast (runMerge m calls) k c :=
  foldl_preserve (fun b a hb => merge_values_confAtLeast b a.incoming a.source_type
    a.source_ref a.evidence_grade a.confidence a.historical_exception k c hb) calls m h

theorem runMerge_establishes (m : Merged) (calls : List MergeCall) (call : MergeCall)
    (k : String) (v : PyFloat) (hcall : call ∈ calls) (hmem : (k, v) ∈ call.incoming)
    (hT : (mlookup k TARGET_UNIT_BY_KEY).isSome)
    (hnan : v.isNaN = false) (hneg : v.ltZero = false) :
    confAtLeast (runMerge m calls) k call.confidence :=
  foldl_establish
    (fun b a hb => merge_values_confAtLeast b a.incoming a.source_type a.source_ref
      a.evidence_grade a.confidence a.historical_exception k call.confidence hb)
    call
    (fun b => merge_values_establishes b call.incoming call.source_type call.source_ref
      call.evidence_grade call.confidence call.historical_exception k v hmem hT hnan hneg)
    calls m hcall

/-- C1: the merge rule installs a valid candidate on an unresolved key,
replaces a winner only on strictly greater confidence (ties keep the
winner), and across any cascade the final winner's confidence bounds the
confidence of every valid (hence every rejected) candidate for the key. -/
theorem C1_merge_rule_and_winner_bound :
    (∀ (st sr eg : String) (conf : ℚ) (he : Bool) (m : Merged) (k : String) (v : PyFloat),
        (mlookup k TARGET_UNIT_BY_KEY).isSome → v.isNaN = false → v.ltZero = false →
          (mlookup k m = none →
            mlookup k (mergeStep st sr eg conf he m (k, v))
              = some ⟨v, st, sr, eg, conf, he⟩)
          ∧ (∀ e, mlookup k m = some e →
              mlookup k (mergeStep st sr eg conf he m (k, v))
                = some (if conf > e.confidence then ⟨v, st, sr, eg, conf, he⟩ else e)))
    ∧ (∀ (calls : List MergeCall) (k : String) (w : SourceValue),
        mlookup k (runMerge [] calls) = some w →
        ∀ call ∈ calls, ∀ v : PyFloat, (k, v) ∈ call.incoming →
          (mlookup k TARGET_UNIT_BY_KEY).isSome → v.isNaN = false → v.ltZero = false →
          call.confidence ≤ w.confidence) := by
  constructor
  · intro st sr eg conf he m k v hT hnan hneg
    constructor
    · intro hnone
      rw [mergeStep_valid_eq st sr eg conf he m k v hT hnan hneg]
      simp only [hnone]
      exact mlookup_msetValue_self m k _
    · intro e he2
      rw [mergeStep_valid_eq st sr eg conf he m k v hT hnan hneg]
      simp only [he2]
      split_ifs with hc
      · exact mlookup_msetValue_self m k _
      · exact he2
  · intro calls k w hw call hcall v hmem hT hnan hneg
    obtain ⟨w2, hw2, hc2⟩ := runMerge_establishes [] calls call k v hcall hmem hT hnan hneg
    rw [hw] at hw2
    cases hw2
    exact hc2

/-- Closed instance of C1: an unresolved key accepts a valid candidate,
and a 0.9-confidence winner is kept against a 0.9 tie. -/
theorem C1_merge_rule_and_winner_bound_witness :
    (mlookup "kcal" TARGET_UNIT_BY_KEY).isSome = true
      ∧ mlookup "kcal"
          (mergeStep "MANUAL" "r" "VERIFIED_MANUAL" (mkRat 9 10) false [] ("kcal", .fin 1))
          = some ⟨.fin 1, "MANUAL", "r", "VERIFIED_MANUAL", mkRat 9 10, false⟩ := by
  have h := (C1_merge_rule_and_winner_bound.1 "MANUAL" "r" "VERIFIED_MANUAL"
    (mkRat 9 10) false [] "kcal" (.fin 1) (by decide) rfl (by decide)).1 rfl
  exact ⟨by decide, h⟩

theorem mergeStep_keeps_winner (st sr eg : String) (conf : ℚ) (he : Bool)
    (m : Merged) (kv : String × PyFloat) (k : String) (e : SourceValue)
    (hw : mlookup k m = some e) (hc : conf ≤ e.confidence) :
    mlookup k (mergeStep st sr eg conf he m kv) = some e := by
  obtain ⟨k1, v1⟩ := kv
  by_cases hk : k = k1
  · subst hk
    by_cases h1 : (mlookup k TARGET_UNIT_BY_KEY).isNone = true
    · rw [mergeStep_not_target st sr eg conf he m (k, v1) h1]
      exact hw
    · by_cases h2 : v1.isNaN = true
      · rw [mergeStep_nan st sr eg conf he m (k, v1) h2]
        exact hw
      · by_cases h3 : v1.ltZero = true
        · rw [mergeStep_neg st sr eg conf he m (k, v1) h3]
          exact hw
        · have hT : (mlookup k TARGET_UNIT_BY_KEY).isSome = true := by
            cases hx : mlookup k TARGET_UNIT_BY_KEY with
            | none => rw [hx] at h1; exact absurd rfl h1
            | some u => rfl
          rw [mergeStep_valid_eq st sr eg conf he m k v1 hT
            (Bool.eq_false_iff.mpr h2) (Bool.eq_false_iff.mpr h3)]
          simp only [hw]
          rw [if_neg (not_lt.mpr hc)]
          exact hw
  · rw [mergeStep_lookup_ne st sr eg conf he m (k1, v1) k hk]
    exact hw

theorem merge_values_keeps_winner (m : Merged) (incoming : List (String × PyFloat))
    (st sr eg : String) (conf : ℚ) (he : Bool) (k : String) (e : SourceValue)
    (hw : mlookup k m = some e) (hc : conf ≤ e.confidence) :
    mlookup k (merge_values m incoming st sr eg conf he) = some e :=
  foldl_preserve (fun b a hb => mergeStep_keeps_winner st sr eg conf he b a k e hb hc)
    incoming m hw

/-- One call of `merge_values` on a singleton map is one `mergeStep`. -/
theorem merge_values_singleton (m : Merged) (k : String) (v : PyFloat)
    (st sr eg : String) (conf : ℚ) (he : Bool) :
    merge_values m [(k, v)] st sr eg conf he = mergeStep st sr eg conf he m (k, v) := rfl

theorem step1Fold_skip_ne (k : String) :
    ∀ (rest : List (String × SourceValue)), (∀ q ∈ rest, q.1 ≠ k) →
    ∀ m : Merged, mlookup k (step1Fold rest m) = mlookup k m := by
  intro rest
  induction rest with
  | nil => intro _ m; rfl
  | cons q qs ih =>
    intro hne m
    show mlookup k (step1Fold qs (merge_values m [(q.1, q.2.value)] _ _ _ _ _)) = _
    rw [ih (fun r hr => hne r (List.mem_cons_of_mem _ hr))]
    rw [merge_values_singleton]
    exact mergeStep_lookup_ne _ _ _ _ _ m (q.1, q.2.value) k
      (fun hh => hne q (List.mem_cons_self _ _) hh.symm)

/-- After step 1 of `resolve_product_profile`, an existing row for key k
(keys unique) is the winner with its baseline-raised confidence. -/
theorem step1Fold_existing_winner :
    ∀ (existing : List (String × SourceValue)) (k : String) (sv : SourceValue),
      (existing.map Prod.fst).Nodup →
      (k, sv) ∈ existing →
      (mlookup k TARGET_UNIT_BY_KEY).isSome →
      sv.value.isNaN = false → sv.value.ltZero = false →
      ∀ (m : Merged), mlookup k m = none →
        mlookup k (step1Fold existing m)
          = some ⟨sv.value, sv.source_type, sv.source_ref, sv.evidence_grade,
              max sv.confidence (baselineConfidence sv), sv.historical_exception⟩ := by
  intro existing
  induction existing with
  | nil => intro k sv _ hmem; cases hmem
  | cons p rest ih =>
    intro k sv hnd hmem hT hnan hneg m hm
    rw [List.map_cons, List.nodup_cons] at hnd
    rcases List.mem_cons.mp hmem with heq | hmem2
    · subst heq
      show mlookup k (step1Fold rest (merge_values m [(k, sv.value)] _ _ _ _ _)) = _
      have hrest : ∀ q ∈ rest, q.1 ≠ k := by
        intro q hq hqk
        have h5 : q.1 ∈ rest.map Prod.fst := List.mem_map_of_mem Prod.fst hq
        rw [hqk] at h5
        exact hnd.1 h5
      rw [step1Fold_skip_ne k rest hrest]
      rw [merge_values_singleton]
      rw [mergeStep_valid_eq _ _ _ _ _ m k sv.value hT hnan hneg]
      simp only [hm]
      exact mlookup_msetValue_self m k _
    · have hq1 : p.1 ≠ k := by
        intro hqk
        have h5 : k ∈ rest.map Prod.fst := List.mem_map_of_mem Prod.fst hmem2
        apply hnd.1
        rw [hqk]
        exact h5
      show mlookup k (step1Fold rest (merge_values m [(p.1, p.2.value)] _ _ _ _ _)) = _
      refine ih k sv hnd.2 hmem2 hT hnan hneg _ ?_
      rw [merge_values_singleton]
      rw [mergeStep_lookup_ne _ _ _ _ _ m (p.1, p.2.value) k (fun hh => hq1 hh.symm)]
      exact hm

theorem resolveStep2_keeps (source : SourceOracle) (upc : Option String)
    (m : Merged) (k : String) (e : SourceValue) (hw : mlookup k m = some e)
    (hc : mkRat 84 100 ≤ e.confidence) :
    mlookup k (resolveStep2 source upc m) = some e := by
  unfold resolveStep2
  cases upc with
  | none => exact hw
  | some u =>
    dsimp only
    split_ifs with h
    · exact hw
    · exact merge_values_keeps_winner m _ _ _ _ _ _ k e hw hc

theorem resolveStep3_keeps (source : SourceOracle) (query_base : String)
    (upc : Option String) (m : Merged) (k : String) (e : SourceValue)
    (hw : mlookup k m = some e) (hc : mkRat 8 10 ≤ e.confidence) :
    mlookup k (resolveStep3 source query_base upc m) = some e := by
  unfold resolveStep3
  split_ifs with h
  · exact hw
  · exact merge_values_keeps_winner m _ _ _ _ _ _ k e hw hc

theorem resolveStep4_keeps (source : SourceOracle) (ingredient_name : String)
    (m : Merged) (k : String) (e : SourceValue) (hw : mlookup k m = some e)
    (hc : mkRat 7 10 ≤ e.confidence) :
    mlookup k (resolveStep4 source ingredient_name m) = some e := by
  unfold resolveStep4
  split_ifs with h
  · exact hw
  · exact merge_values_keeps_winner m _ _ _ _ _ _ k e hw hc

/-- C3 (amended): the UPC-backed manufacturer (OpenFoodFacts) lookup
merges at fixed confidence 0.84, so for every key backed by an existing
MANUAL row (effective confidence max(stored, 0.95) ≥ 0.95) the MANUAL
row wins and the manufacturer/USDA candidates are rejected. -/
theorem C3_manual_wins_overlapping_key :
    ∀ (source : SourceOracle) (product : ProductRow)
      (existing : List (String × SourceValue)) (k : String) (sv : SourceValue),
      (existing.map Prod.fst).Nodup →
      (k, sv) ∈ existing →
      sv.source_type = "MANUAL" →
      (mlookup k TARGET_UNIT_BY_KEY).isSome →
      sv.value.isNaN = false → sv.value.ltZero = false →
      mlookup k (resolve_product_profile source product existing)
        = some ⟨sv.value, sv.source_type, sv.source_ref, sv.evidence_grade,
            max sv.confidence (mkRat 95 100), sv.historical_exception⟩ := by
  intro source product existing k sv hnd hmem hman hT hnan hneg
  have hbase : baselineConfidence sv = mkRat 95 100 := by
    unfold baselineConfidence
    rw [if_pos (Or.inl hman)]
  have h1 : mlookup k (step1Fold existing [])
      = some ⟨sv.value, sv.source_type, sv.source_ref, sv.evidence_grade,
          max sv.confidence (mkRat 95 100), sv.historical_exception⟩ := by
    rw [← hbase]
    exact step1Fold_existing_winner existing k sv hnd hmem hT hnan hneg [] rfl
  have hge : ∀ c : ℚ, c ≤ mkRat 95 100 → c ≤ max sv.confidence (mkRat 95 100) :=
    fun c hc => le_trans hc (le_max_right _ _)
  unfold resolve_product_profile
  apply resolveStep4_keeps
  · apply resolveStep3_keeps
    · apply resolveStep2_keeps
      · exact h1
      · exact hge _ (by decide)
    · exact hge _ (by decide)
  · exact hge _ (by decide)

/-- Closed instance of C3's amended statement at the concrete input of
the counterexample. -/
theorem C3_manual_wins_overlapping_key_witness :
    (c3Existing.map Prod.fst).Nodup
      ∧ ("kcal", c3ManualRow) ∈ c3Existing
      ∧ c3ManualRow.source_type = "MANUAL"
      ∧ mlookup "kcal" (resolve_product_profile c3Oracle c3Product c3Existing)
          = some ⟨c3ManualRow.value, c3ManualRow.source_type, c3ManualRow.source_ref,
              c3ManualRow.evidence_grade, max c3ManualRow.confidence (mkRat 95 100),
              c3ManualRow.historical_exception⟩ := by
  refine ⟨by decide, by decide, rfl, ?_⟩
  exact C3_manual_wins_overlapping_key c3Oracle c3Product c3Existing "kcal" c3ManualRow
    (by decide) (by decide) rfl (by decide) rfl rfl

/-- C3 counterexample: the manufacturer lookup supplies kcal = 250 for
the product's UPC, an existing MANUAL row holds kcal = 100 at stored
confidence 0.95, and the resolver's winner for the overlapping key is
the MANUAL value with kcal = 100 — not the manufacturer value the claim
predicts — because the manufacturer candidate merges at 0.84, not 0.96. -/
theorem C3_counterexample :
    c3Oracle.off "00000000017" = [("kcal", .fin 250)]
      ∧ normalize_upc c3Product.upc = some "00000000017"
      ∧ mlookup "kcal" (resolve_product_profile c3Oracle c3Product c3Existing)
          = some ⟨.fin 100, "MANUAL", "manual-ref", "VERIFIED_MANUAL", mkRat 95 100, false⟩
      ∧ ¬ ((mlookup "kcal" (resolve_product_profile c3Oracle c3Product c3Existing)).map
            (fun w => w.value) = some (PyFloat.fin 250)) := by
  refine ⟨rfl, by decide, ?_, ?_⟩
  · decide
  · decide

/-!
### Value sanity (no NaN, no negative) through the whole pipeline
-/

theorem goodMap_nil : goodMap [] := by
  intro k w h
  simp [mlookup] at h

theorem mlookup_msetValue_cases (m : Merged) (k k' : String) (v : SourceValue) :
    mlookup k' (msetValue m k v) = if k' = k then some v else mlookup k' m := by
  split_ifs with h
  · subst h
    exact mlookup_msetValue_self m k' v
  · exact mlookup_msetValue_ne m k k' v h

theorem goodMap_msetValue (m : Merged) (k : String) (v : SourceValue)
    (hm : goodMap m) (hv : v.value.isNaN = false ∧ v.value.ltZero = false) :
    goodMap (msetValue m k v) := by
  intro k' w h
  rw [mlookup_msetValue_cases] at h
  split_ifs at h with hk
  · cases h
    exact hv
  · exact hm k' w h

theorem mergeStep_goodMap (st sr eg : String) (conf : ℚ) (he : Bool)
    (m : Merged) (kv : String × PyFloat) (hm : goodMap m) :
    goodMap (mergeStep st sr eg conf he m kv) := by
  unfold mergeStep
  split_ifs with h1 h2 h3
  · exact hm
  · exact hm
  · exact hm
  · have hnan : kv.2.isNaN = false := Bool.eq_false_iff.mpr h2
    have hneg : kv.2.ltZero = false := Bool.eq_false_iff.mpr h3
    cases hx : mlookup kv.1 m with
    | none =>
      exact goodMap_msetValue m kv.1 _ hm ⟨hnan, hneg⟩
    | some e =>
      dsimp only
      split_ifs with hc
      · exact goodMap_msetValue m kv.1 _ hm ⟨hnan, hneg⟩
      · exact hm

theorem merge_values_goodMap (m : Merged) (incoming : List (String × PyFloat))
    (st sr eg : String) (conf : ℚ) (he : Bool) (hm : goodMap m) :
    goodMap (merge_values m incoming st sr eg conf he) :=
  foldl_preserve (fun b a hb => mergeStep_goodMap st sr eg conf he b a hb) incoming m hm

theorem step1Fold_goodMap (existing : List (String × SourceValue)) (m : Merged)
    (hm : goodMap m) : goodMap (step1Fold existing m) :=
  foldl_preserve (fun b _ hb => merge_values_goodMap b _ _ _ _ _ _ hb) existing m hm

theorem resolveStep2_goodMap (source : SourceOracle) (upc : Option String)
    (m : Merged) (hm : goodMap m) : goodMap (resolveStep2 source upc m) := by
  unfold resolveStep2
  cases upc with
  | none => exact hm
  | some u =>
    dsimp only
    split_ifs with h
    · exact hm
    · exact merge_values_goodMap _ _ _ _ _ _ _ hm

theorem resolveStep3_goodMap (source : SourceOracle) (query_base : String)
    (upc : Option String) (m : Merged) (hm : goodMap m) :
    goodMap (resolveStep3 source query_base upc m) := by
  unfold resolveStep3
  split_ifs with h
  · exact hm
  · exact merge_values_goodMap _ _ _ _ _ _ _ hm

theorem resolveStep4_goodMap (source : SourceOracle) (ingredient_name : String)
    (m : Merged) (hm : goodMap m) : goodMap (resolveStep4 source ingredient_name m) := by
  unfold resolveStep4
  split_ifs with h
  · exact hm
  · exact merge_values_goodMap _ _ _ _ _ _ _ hm

theorem resolve_goodMap (source : SourceOracle) (product : ProductRow)
    (existing : List (String × SourceValue)) :
    goodMap (resolve_product_profile source product existing) := by
  unfold resolve_product_profile
  exact resolveStep4_goodMap _ _ _ (resolveStep3_goodMap _ _ _ _
    (resolveStep2_goodMap _ _ _ (step1Fold_goodMap existing [] goodMap_nil)))

theorem mlookup_mem {α : Type} (k : String) (v : α) :
    ∀ (l : List (String × α)), mlookup k l = some v → (k, v) ∈ l := by
  intro l
  induction l with
  | nil => intro h; simp [mlookup] at h
  | cons p ps ih =>
    obtain ⟨a, b⟩ := p
    intro h
    by_cases hk : k = a
    · subst hk
      simp only [mlookup, if_pos rfl] at h
      cases h
      exact List.mem_cons_self _ _
    · simp only [mlookup, hk, if_false] at h
      exact List.mem_cons_of_mem _ (ih h)

theorem DEFAULT_nonneg : ∀ kq ∈ DEFAULT_SIMILAR_FALLBACKS, (0 : ℚ) ≤ kq.2 := by
  intro kq h
  fin_cases h <;> norm_num

theorem updateRMaps_goodState (rm : RMaps) (pid : String) (m : Merged)
    (hg : goodState rm) (hm : goodMap m) : goodState (updateRMaps rm pid m) := by
  intro p
  unfold updateRMaps
  split_ifs with h
  · exact hm
  · exact hg p

theorem findDonor_good (rm : RMaps) (pid k : String) (hg : goodState rm) :
    ∀ (donors : List ProductRow) (dv : PyFloat × String),
      findDonor rm pid k donors = some dv →
      dv.1.isNaN = false ∧ dv.1.ltZero = false := by
  intro donors
  induction donors with
  | nil => intro dv h; simp [findDonor] at h
  | cons d ds ih =>
    intro dv h
    unfold findDonor at h
    split_ifs at h with hd
    · exact ih dv h
    · cases hx : mlookup k (rm d.product_id) with
      | none =>
        rw [hx] at h
        exact ih dv h
      | some sv =>
        rw [hx] at h
        dsimp only at h
        cases h
        exact hg d.product_id k sv hx

theorem forced_zero_good (product : ProductRow) (k : String) (hist : Bool)
    (f : SourceValue) (h : forced_zero_for_missing_key product k hist = some f) :
    f.value.isNaN = false ∧ f.value.ltZero = false := by
  unfold forced_zero_for_missing_key at h
  split_ifs at h
  cases h
  exact ⟨rfl, by unfold PyFloat.ltZero; exact decide_eq_false (lt_irrefl 0)⟩

theorem fillProductKey_goodState (donors : List ProductRow)
    (glb : List (String × ℚ)) (hist : Bool) (ik : String) (p : ProductRow)
    (hglb : ∀ kq ∈ glb, (0 : ℚ) ≤ kq.2) (rm : RMaps) (k : String)
    (hg : goodState rm) : goodState (fillProductKey donors glb hist ik p rm k) := by
  unfold fillProductKey
  split_ifs with h1
  · exact hg
  · cases hf : forced_zero_for_missing_key p k hist with
    | some f =>
      exact updateRMaps_goodState rm p.product_id _ hg
        (goodMap_msetValue _ k f (hg p.product_id) (forced_zero_good p k hist f hf))
    | none =>
      cases hd : findDonor rm p.product_id k donors with
      | some dv =>
        exact updateRMaps_goodState rm p.product_id _ hg
          (goodMap_msetValue _ k _ (hg p.product_id)
            (findDonor_good rm p.product_id k hg donors dv hd))
      | none =>
        cases hgl : (mlookup k glb).orElse (fun _ => mlookup k DEFAULT_SIMILAR_FALLBACKS) with
        | some gv =>
          have h0 : (0 : ℚ) ≤ gv := by
            cases hq : mlookup k glb with
            | some q =>
              rw [hq] at hgl
              simp only [Option.orElse] at hgl
              have h2 := Option.some.inj hgl
              subst h2
              exact hglb (k, q) (mlookup_mem k q glb hq)
            | none =>
              rw [hq] at hgl
              simp only [Option.orElse] at hgl
              exact DEFAULT_nonneg (k, gv) (mlookup_mem k gv _ hgl)
          refine updateRMaps_goodState rm p.product_id _ hg
            (goodMap_msetValue _ k _ (hg p.product_id) ⟨rfl, ?_⟩)
          unfold PyFloat.ltZero
          exact decide_eq_false (not_lt.mpr h0)
        | none => exact hg

theorem fillProduct_goodState (donors : List ProductRow)
    (glb : List (String × ℚ)) (hist : Bool) (ik : String) (p : ProductRow)
    (hglb : ∀ kq ∈ glb, (0 : ℚ) ≤ kq.2) (rm : RMaps)
    (hg : goodState rm) : goodState (fillProduct donors glb hist ik rm p) :=
  foldl_preserve (fun b a hb => fillProductKey_goodState donors glb hist ik p hglb b a hb)
    TARGET_KEYS rm hg

theorem fillGroup_goodState (glb : List (String × ℚ)) (hist : Bool)
    (ik : String) (group : List ProductRow)
    (hglb : ∀ kq ∈ glb, (0 : ℚ) ≤ kq.2) (rm : RMaps)
    (hg : goodState rm) : goodState (fillGroup glb hist rm ik group) :=
  foldl_preserve (fun b a hb => fillProduct_goodState _ glb hist ik a hglb b hb)
    group rm hg

theorem fill_goodState (groups : List (String × List ProductRow))
    (glb : List (String × ℚ)) (hist : Bool)
    (hglb : ∀ kq ∈ glb, (0 : ℚ) ≤ kq.2) (rm : RMaps) (hg : goodState rm) :
    goodState (fill_from_similar_products groups rm glb hist) :=
  foldl_preserve (fun b a hb => fillGroup_goodState glb hist a.1 a.2 hglb b hb)
    groups rm hg

/-- C8 (amended): every value the resolver stores — through the merge
cascade, the sanity rule, donor copies and fallbacks (the latter under
the factual premise that the fallback table holds non-negative entries)
— is non-NaN and non-negative; infinity, however, is not filtered. -/
theorem C8_values_never_nan_never_negative :
    (∀ (source : SourceOracle) (product : ProductRow)
        (existing : List (String × SourceValue)) (k : String) (w : SourceValue),
        mlookup k (resolve_product_profile source product existing) = some w →
        w.value.isNaN = false ∧ w.value.ltZero = false)
    ∧ (∀ (groups : List (String × List ProductRow)) (rm : RMaps)
        (glb : List (String × ℚ)) (hist : Bool),
        (∀ pid k w, mlookup k (rm pid) = some w →
          w.value.isNaN = false ∧ w.value.ltZero = false) →
        (∀ kq ∈ glb, (0 : ℚ) ≤ kq.2) →
        ∀ pid k w,
          mlookup k ((fill_from_similar_products groups rm glb hist) pid) = some w →
          w.value.isNaN = false ∧ w.value.ltZero = false) := by
  constructor
  · intro source product existing k w hw
    exact resolve_goodMap source product existing k w hw
  · intro groups rm glb hist hrm hglb pid k w hw
    exact fill_goodState groups glb hist hglb rm (fun p => hrm p) pid k w hw

set_option maxRecDepth 40000 in
/-- Closed instance of C8's amended fill clause at a concrete input:
the static default fills kcal at 120, non-NaN and non-negative. -/
theorem C8_values_never_nan_never_negative_witness :
    mlookup "kcal"
        ((fill_from_similar_products [("widget", [c8Product])] (fun _ => []) [] true) "p-c8")
        = some ⟨.fin 120, "DERIVED", "similar-product:global:widget",
            "INFERRED_FROM_SIMILAR_PRODUCT", mkRat 25 100, true⟩
      ∧ (PyFloat.fin 120).isNaN = false ∧ (PyFloat.fin 120).ltZero = false := by
  have hl : mlookup "kcal"
      ((fill_from_similar_products [("widget", [c8Product])] (fun _ => []) [] true) "p-c8")
      = some ⟨.fin 120, "DERIVED", "similar-product:global:widget",
          "INFERRED_FROM_SIMILAR_PRODUCT", mkRat 25 100, true⟩ := by decide
  refine ⟨hl, ?_⟩
  exact C8_values_never_nan_never_negative.2 [("widget", [c8Product])] (fun _ => []) [] true
    (by intro pid k w h; simp [mlookup] at h) (by intro kq h; simp at h) "p-c8" "kcal" _ hl

set_option maxRecDepth 40000 in
/-- C8 counterexample: an existing MANUAL row whose stored value is
`float('inf')` passes both filters of `merge_values` (`inf != inf` is
false and `inf < 0` is false), so the final resolved profile carries a
non-finite value — refuting the claim that every resolved value is
finite. -/
theorem C8_counterexample :
    mlookup "kcal"
        ((fill_from_similar_products [("widget", [c8Product])] c8Initial [] true) "p-c8")
        = some ⟨.inf, "MANUAL", "manual-ref", "VERIFIED_MANUAL", mkRat 95 100, false⟩
      ∧ PyFloat.inf.isFinite = false := by
  constructor
  · decide
  · rfl

/-!
### Fallback pass lemmas (sanity override, key coverage)
-/

theorem foldl_establish_first {α β : Type _} {P Q : β → Prop} {f : β → α → β} (x : α)
    (hkeepP : ∀ b a, a ≠ x → P b → P (f b a))
    (hest : ∀ b, P b → Q (f b x))
    (hkeepQ : ∀ b a, Q b → Q (f b a)) :
    ∀ (l : List α) (b : β), x ∈ l → P b → Q (l.foldl f b)
  | [], _, hx, _ => absurd hx (List.not_mem_nil x)
  | a :: as, b, hx, hb => by
    by_cases ha : a = x
    · subst ha
      exact foldl_preserve hkeepQ as (f b a) (hest b hb)
    · rcases List.mem_cons.mp hx with heq | hx2
      · exact absurd heq.symm ha
      · exact foldl_establish_first x hkeepP hest hkeepQ as (f b a) hx2 (hkeepP b a ha hb)

theorem fillProductKey_other_pid (donors : List ProductRow)
    (glb : List (String × ℚ)) (hist : Bool) (ik : String) (p : ProductRow)
    (rm : RMaps) (key : String) (pid : String) (h : pid ≠ p.product_id) :
    (fillProductKey donors glb hist ik p rm key) pid = rm pid := by
  unfold fillProductKey updateRMaps
  split_ifs with h1
  · rfl
  · cases forced_zero_for_missing_key p key hist with
    | some f => exact if_neg h
    | none =>
      cases findDonor rm p.product_id key donors with
      | some dv => exact if_neg h
      | none =>
        cases (mlookup key glb).orElse (fun _ => mlookup key DEFAULT_SIMILAR_FALLBACKS) with
        | some gv => exact if_neg h
        | none => rfl

theorem fillProductKey_other_key (donors : List ProductRow)
    (glb : List (String × ℚ)) (hist : Bool) (ik : String) (p : ProductRow)
    (rm : RMaps) (key : String) (pid : String) (k : String) (hne : k ≠ key) :
    mlookup k ((fillProductKey donors glb hist ik p rm key) pid) = mlookup k (rm pid) := by
  by_cases hpid : pid = p.product_id
  · subst hpid
    unfold fillProductKey updateRMaps
    split_ifs with h1
    · rfl
    · cases forced_zero_for_missing_key p key hist with
      | some f =>
        dsimp only
        rw [if_pos rfl]
        exact mlookup_msetValue_ne _ key k _ hne
      | none =>
        cases findDonor rm p.product_id key donors with
        | some dv =>
          dsimp only
          rw [if_pos rfl]
          exact mlookup_msetValue_ne _ key k _ hne
        | none =>
          cases (mlookup key glb).orElse (fun _ => mlookup key DEFAULT_SIMILAR_FALLBACKS) with
          | some gv =>
            dsimp only
            rw [if_pos rfl]
            exact mlookup_msetValue_ne _ key k _ hne
          | none => rfl
  · rw [fillProductKey_other_pid donors glb hist ik p rm key pid hpid]

theorem fillProductKey_preserves_some (donors : List ProductRow)
    (glb : List (String × ℚ)) (hist : Bool) (ik : String) (p : ProductRow)
    (rm : RMaps) (key : String) (pid : String) (k : String) (w : SourceValue)
    (hw : mlookup k (rm pid) = some w) :
    mlookup k ((fillProductKey donors glb hist ik p rm key) pid) = some w := by
  by_cases hk : k = key
  · subst hk
    by_cases hpid : pid = p.product_id
    · subst hpid
      unfold fillProductKey
      rw [if_pos (by rw [hw]; rfl)]
      exact hw
    · rw [fillProductKey_other_pid donors glb hist ik p rm k pid hpid]
      exact hw
  · rw [fillProductKey_other_key donors glb hist ik p rm key pid k hk]
    exact hw

theorem fillProductKey_isSome_preserve (donors : List ProductRow)
    (glb : List (String × ℚ)) (hist : Bool) (ik : String) (p : ProductRow)
    (rm : RMaps) (key : String) (pid : String) (k : String)
    (h : (mlookup k (rm pid)).isSome = true) :
    (mlookup k ((fillProductKey donors glb hist ik p rm key) pid)).isSome = true := by
  obtain ⟨w, hw⟩ := Option.isSome_iff_exists.mp h
  rw [fillProductKey_preserves_some donors glb hist ik p rm key pid k w hw]
  rfl

theorem DEFAULT_covers :
    ∀ k ∈ TARGET_KEYS, (mlookup k DEFAULT_SIMILAR_FALLBACKS).isSome = true := by
  decide

theorem fillProductKey_makes_some (donors : List ProductRow)
    (glb : List (String × ℚ)) (hist : Bool) (ik : String) (p : ProductRow)
    (rm : RMaps) (k : String) (hk : k ∈ TARGET_KEYS) :
    (mlookup k ((fillProductKey donors glb hist ik p rm k) p.product_id)).isSome = true := by
  unfold fillProductKey
  split_ifs with h1
  · exact h1
  · cases hf : forced_zero_for_missing_key p k hist with
    | some f =>
      show (mlookup k ((updateRMaps rm p.product_id
        (msetValue (rm p.product_id) k f)) p.product_id)).isSome = true
      unfold updateRMaps
      rw [if_pos rfl, mlookup_msetValue_self]
      rfl
    | none =>
      cases hd : findDonor rm p.product_id k donors with
      | some dv =>
        show (mlookup k ((updateRMaps rm p.product_id
          (msetValue (rm p.product_id) k _)) p.product_id)).isSome = true
        unfold updateRMaps
        rw [if_pos rfl, mlookup_msetValue_self]
        rfl
      | none =>
        cases hgl : (mlookup k glb).orElse
            (fun _ => mlookup k DEFAULT_SIMILAR_FALLBACKS) with
        | some gv =>
          show (mlookup k ((updateRMaps rm p.product_id
            (msetValue (rm p.product_id) k _)) p.product_id)).isSome = true
          unfold updateRMaps
          rw [if_pos rfl, mlookup_msetValue_self]
          rfl
        | none =>
          exfalso
          cases hq : mlookup k glb with
          | some q =>
            rw [hq] at hgl
            simp [Option.orElse] at hgl
          | none =>
            rw [hq] at hgl
            simp only [Option.orElse] at hgl
            have hc := DEFAULT_covers k hk
            rw [hgl] at hc
            simp at hc

theorem fillProduct_preserves_some (donors : List ProductRow)
    (glb : List (String × ℚ)) (hist : Bool) (ik : String) (p : ProductRow)
    (rm : RMaps) (pid : String) (k : String) (w : SourceValue)
    (hw : mlookup k (rm pid) = some w) :
    mlookup k ((fillProduct donors glb hist ik rm p) pid) = some w :=
  foldl_preserve (fun b a hb => fillProductKey_preserves_some donors glb hist ik p b a pid k w hb)
    TARGET_KEYS rm hw

theorem fillProduct_isSome_preserve (donors : List ProductRow)
    (glb : List (String × ℚ)) (hist : Bool) (ik : String) (p : ProductRow)
    (rm : RMaps) (pid : String) (k : String)
    (h : (mlookup k (rm pid)).isSome = true) :
    (mlookup k ((fillProduct donors glb hist ik rm p) pid)).isSome = true :=
  foldl_preserve (fun b a hb => fillProductKey_isSome_preserve donors glb hist ik p b a pid k hb)
    TARGET_KEYS rm h

theorem fillProduct_makes_some (donors : List ProductRow)
    (glb : List (String × ℚ)) (hist : Bool) (ik : String) (p : ProductRow)
    (rm : RMaps) (k : String) (hk : k ∈ TARGET_KEYS) :
    (mlookup k ((fillProduct donors glb hist ik rm p) p.product_id)).isSome = true :=
  foldl_establish
    (fun b a hb => fillProductKey_isSome_preserve donors glb hist ik p b a p.product_id k hb)
    k (fun b => fillProductKey_makes_some donors glb hist ik p b k hk)
    TARGET_KEYS rm hk

theorem fillGroup_isSome_preserve (glb : List (String × ℚ)) (hist : Bool)
    (ik : String) (group : List ProductRow) (rm : RMaps) (pid : String) (k : String)
    (h : (mlookup k (rm pid)).isSome = true) :
    (mlookup k ((fillGroup glb hist rm ik group) pid)).isSome = true :=
  foldl_preserve (fun b a hb => fillProduct_isSome_preserve _ glb hist ik a b pid k hb)
    group rm h

theorem fillGroup_makes_some (glb : List (String × ℚ)) (hist : Bool)
    (ik : String) (group : List ProductRow) (p : ProductRow) (rm : RMaps) (k : String)
    (hp : p ∈ group) (hk : k ∈ TARGET_KEYS) :
    (mlookup k ((fillGroup glb hist rm ik group) p.product_id)).isSome = true :=
  foldl_establish
    (fun b a hb => fillProduct_isSome_preserve _ glb hist ik a b p.product_id k hb)
    p (fun b => fillProduct_makes_some _ glb hist ik p b k hk)
    group rm hp

/-- C10: after the fallback pass every product in every group has a
value for every one of the 40 target keys — the static default table
covers all of them, so the per-key chain (skip, forced zero, donor,
global/static fallback) always lands on a value. -/
theorem C10_every_target_key_resolved :
    ∀ (groups : List (String × List ProductRow)) (rm : RMaps)
      (glb : List (String × ℚ)) (hist : Bool)
      (g : String × List ProductRow) (p : ProductRow) (k : String),
      g ∈ groups → p ∈ g.2 → k ∈ TARGET_KEYS →
      (mlookup k ((fill_from_similar_products groups rm glb hist) p.product_id)).isSome
        = true := by
  intro groups rm glb hist g p k hg hp hk
  exact foldl_establish
    (fun b a hb => fillGroup_isSome_preserve glb hist a.1 a.2 b p.product_id k hb)
    g (fun b => fillGroup_makes_some glb hist g.1 g.2 p b k hp hk)
    groups rm hg

/-- Closed instance of C10: TARGET_KEYS has exactly 40 keys, and the
fill pass resolves kcal for a product that starts with nothing. -/
theorem C10_every_target_key_resolved_witness :
    TARGET_KEYS.length = 40
      ∧ (mlookup "kcal"
          ((fill_from_similar_products [("widget", [c8Product])] (fun _ => []) [] true)
            "p-c8")).isSome = true := by
  constructor
  · decide
  · exact C10_every_target_key_resolved [("widget", [c8Product])] (fun _ => []) [] true
      ("widget", [c8Product]) c8Product "kcal" (List.mem_cons_self _ _)
      (List.mem_cons_self _ _) (by decide)

theorem forced_zero_some (p : ProductRow) (k : String) (hist : Bool)
    (hplain : is_plain_animal_protein p = true) (hcarb : k ∈ CARB_SUGAR_KEYS) :
    forced_zero_for_missing_key p k hist
      = some ⟨.fin 0, "DERIVED", "sanity-rule:animal-protein-zero-carb",
          "INFERRED_FROM_INGREDIENT", mkRat 8 10, hist⟩ := by
  unfold forced_zero_for_missing_key
  rw [if_neg (not_not_intro hcarb), if_neg (not_not_intro hplain)]

theorem fillProductKey_forces (donors : List ProductRow)
    (glb : List (String × ℚ)) (hist : Bool) (ik : String) (p : ProductRow)
    (rm : RMaps) (k : String)
    (hplain : is_plain_animal_protein p = true) (hcarb : k ∈ CARB_SUGAR_KEYS)
    (hnone : mlookup k (rm p.product_id) = none) :
    mlookup k ((fillProductKey donors glb hist ik p rm k) p.product_id)
      = some ⟨.fin 0, "DERIVED", "sanity-rule:animal-protein-zero-carb",
          "INFERRED_FROM_INGREDIENT", mkRat 8 10, hist⟩ := by
  unfold fillProductKey
  rw [if_neg (by rw [hnone]; simp)]
  rw [forced_zero_some p k hist hplain hcarb]
  show mlookup k ((updateRMaps rm p.product_id
    (msetValue (rm p.product_id) k _)) p.product_id) = _
  unfold updateRMaps
  rw [if_pos rfl]
  exact mlookup_msetValue_self _ k _

/-- C2 (amended): when the fallback pass reaches an animal-protein
product, each carbohydrate-family key that is STILL UNRESOLVED is forced
to 0.0 with evidence grade INFERRED_FROM_INGREDIENT and confidence 0.8;
keys already resolved by cascade steps 1-4 are left unchanged (the
override applies only to missing keys). -/
theorem C2_sanity_override_missing_keys_only :
    ∀ (donors : List ProductRow) (glb : List (String × ℚ)) (hist : Bool)
      (ik : String) (p : ProductRow) (rm : RMaps) (k : String),
      is_plain_animal_protein p = true →
      k ∈ CARB_SUGAR_KEYS →
      mlookup k (rm p.product_id) = none →
      mlookup k ((fillProduct donors glb hist ik rm p) p.product_id)
        = some ⟨.fin 0, "DERIVED", "sanity-rule:animal-protein-zero-carb",
            "INFERRED_FROM_INGREDIENT", mkRat 8 10, hist⟩ := by
  intro donors glb hist ik p rm k hplain hcarb hnone
  have hkT : k ∈ TARGET_KEYS := by
    fin_cases hcarb <;> decide
  exact foldl_establish_first k
    (fun b a ha hb => by
      rw [fillProductKey_other_key donors glb hist ik p b a p.product_id k
        (fun hh => ha hh.symm)]
      exact hb)
    (fun b hb => fillProductKey_forces donors glb hist ik p b k hplain hcarb hb)
    (fun b a hb => fillProductKey_preserves_some donors glb hist ik p b a p.product_id k _ hb)
    TARGET_KEYS rm hkT hnone

set_option maxRecDepth 40000 in
/-- Closed instance of C2's amended statement: "Grilled Chicken Breast"
with no resolved carb_g gets the forced zero. -/
theorem C2_sanity_override_missing_keys_only_witness :
    is_plain_animal_protein c2Product = true
      ∧ "carb_g" ∈ CARB_SUGAR_KEYS
      ∧ mlookup "carb_g"
          ((fillProduct [] [] true "chicken_breast" (fun _ => []) c2Product) "p-c2")
          = some ⟨.fin 0, "DERIVED", "sanity-rule:animal-protein-zero-carb",
              "INFERRED_FROM_INGREDIENT", mkRat 8 10, true⟩ := by
  refine ⟨by decide, by decide, ?_⟩
  exact C2_sanity_override_missing_keys_only [] [] true "chicken_breast" c2Product
    (fun _ => []) "carb_g" (by decide) (by decide) rfl

set_option maxRecDepth 40000 in
/-- C2 counterexample: the same animal-protein product with carb_g
already resolved by the cascade (USDA branded, 30 g/100g) keeps that
value through the fallback pass — the sanity rule does NOT override
steps 1-4, refuting the claim that it forces 0.0 for every
carbohydrate-family key. -/
theorem C2_counterexample :
    is_plain_animal_protein c2Product = true
      ∧ "carb_g" ∈ CARB_SUGAR_KEYS
      ∧ mlookup "carb_g"
          ((fill_from_similar_products [("chicken_breast", [c2Product])] c2Initial [] true)
            "p-c2")
          = some c2CarbThirty
      ∧ c2CarbThirty.value = PyFloat.fin 30
      ∧ c2CarbThirty.evidence_grade = "USDA_BRANDED"
      ∧ ¬ (mlookup "carb_g"
            ((fill_from_similar_products [("chicken_breast", [c2Product])] c2Initial [] true)
              "p-c2")
          = some ⟨.fin 0, "DERIVED", "sanity-rule:animal-protein-zero-carb",
              "INFERRED_FROM_INGREDIENT", mkRat 8 10, true⟩) := by
  refine ⟨by decide, by decide, by decide, rfl, rfl, by decide⟩

end NutritionAutopilot
